import Mathlib

/-!
Shallow embedding of the XCSoar-JET glide-computer orchestration engine
(src/Computer/GlideComputer.cpp together with the state declared in
src/NMEA/Derived.hpp).  Machine doubles are embedded as rationals, time
stamps as rational seconds.  Sub-computers that the spec declares out of
scope (air-data, task, statistics, condition monitors, ...) are opaque
collaborators: the values they write into the derived state during a tick
are supplied as oracle fields of the tick input, and their invocations are
recorded as events so that the pipeline ordering is observable.
-/

namespace XCSoar

set_option maxRecDepth 200000

/-- Modelled from the spec: the Validity primitive (NMEA/Validity.hpp is not
in the sources): a value wrapper recording the time of the last update;
`none` means absent, hence never fresh. -/
structure Validity where
  last_update : Option ℚ
deriving DecidableEq

/-- Modelled from the spec: Validity.update(now) stamps the value. -/
def Validity.Update (_ : Validity) (now : ℚ) : Validity := ⟨some now⟩

/-- std::max on doubles (explicit so that kernel evaluation works on ℚ). -/
def stdMax (a b : ℚ) : ℚ := if a < b then b else a

/-- std::min on doubles (explicit so that kernel evaluation works on ℚ). -/
def stdMin (a b : ℚ) : ℚ := if b < a then b else a

/-- fabs on doubles. -/
def fabs (q : ℚ) : ℚ := if q < 0 then -q else q

/-- Modelled from the spec: PeriodClock (time/PeriodClock.hpp is not in the
sources), the reusable periodic gate.  `CheckUpdate` fires when the clock
was never updated or when at least `period` has elapsed since the last
update, and re-stamps the clock exactly when it fires.  The monotonic
clock reading is supplied by the caller as `now`. -/
structure PeriodClock where
  last_update : Option ℚ
deriving DecidableEq

def PeriodClock.CheckUpdate (c : PeriodClock) (now period : ℚ) :
    Bool × PeriodClock :=
  match c.last_update with
  | none => (true, ⟨some now⟩)
  | some t => if period ≤ now - t then (true, ⟨some now⟩) else (false, c)

/-- Modelled from the spec: SampleClock (the trace-history throttle;
its source is not in the sources).  `Update` returns the time elapsed
since the last recorded sample when at least `min_period` has elapsed
(capped at `max_period`), zero when not enough time has elapsed (leaving
the recorded time unchanged), and a negative duration on a backward time
jump; the recorded time is re-stamped whenever the result is nonzero. -/
structure SampleClock where
  last_time : Option ℚ
deriving DecidableEq

def SampleClock.Update (c : SampleClock) (time min_period max_period : ℚ) :
    ℚ × SampleClock :=
  match c.last_time with
  | none => (0, ⟨some time⟩)
  | some t =>
    if time - t < 0 then (time - t, ⟨some time⟩)
    else if min_period ≤ time - t then
      (stdMin (time - t) max_period, ⟨some time⟩)
    else (0, c)

def SampleClock.Reset (_ : SampleClock) : SampleClock := ⟨none⟩

/-- Modelled from the spec: BrokenDate (time/BrokenDateTime.hpp is not in
the sources), reduced to a day number plus the flag queried by
IsDatePlausible (`credible` here); an invalid date is not credible. -/
structure BrokenDate where
  credible : Bool
  days : Int
deriving DecidableEq

def BrokenDate.Invalid : BrokenDate := ⟨false, 0⟩

/-- Modelled from the spec: BrokenTime as a validity flag plus seconds of
day in [0, 86400). -/
structure BrokenTime where
  valid : Bool
  seconds : Int
deriving DecidableEq

def BrokenTime.Invalid : BrokenTime := ⟨false, 0⟩

/-- Modelled from the spec: BrokenTime + duration wraps around midnight
without touching any date. -/
def BrokenTime.addSeconds (t : BrokenTime) (off : Int) : BrokenTime :=
  ⟨t.valid, (t.seconds + off).emod 86400⟩

structure BrokenDateTime where
  date : BrokenDate
  time : BrokenTime
deriving DecidableEq

def BrokenDateTime.Invalid : BrokenDateTime :=
  ⟨BrokenDate.Invalid, BrokenTime.Invalid⟩

/-- Models BrokenDateTime::IsDatePlausible. -/
def BrokenDateTime.IsDateCredible (dt : BrokenDateTime) : Bool :=
  dt.date.credible

def BrokenDateTime.GetTime (dt : BrokenDateTime) : BrokenTime := dt.time

/-- Modelled from the spec: BrokenDateTime + duration may increment or
decrement the date while shifting the time of day. -/
def BrokenDateTime.addSeconds (dt : BrokenDateTime) (off : Int) :
    BrokenDateTime :=
  ⟨⟨dt.date.credible, dt.date.days + (dt.time.seconds + off).ediv 86400⟩,
   ⟨dt.time.valid, (dt.time.seconds + off).emod 86400⟩⟩

/-! ### Geographic primitives (Geo/GeoPoint.hpp is not in the sources) -/

structure GeoPoint where
  longitude : ℚ
  latitude : ℚ
deriving DecidableEq

structure GeoVector where
  distance : ℚ
  bearing : ℚ
deriving DecidableEq

/-- Modelled from the spec: geodesic distance/bearing is an out-of-scope
numeric collaborator; embedded as a planar surrogate, which is adequate
because every claim observes this value only up to equality. -/
def GeoPoint.DistanceBearing (a b : GeoPoint) : GeoVector :=
  ⟨(b.longitude - a.longitude) * (b.longitude - a.longitude) +
     (b.latitude - a.latitude) * (b.latitude - a.latitude),
   b.longitude - a.longitude⟩

/-- Modelled from the spec: the team code value (TeamCode/TeamCode.hpp is
not in the sources): an encoded bearing/distance pair relative to the
reference waypoint. -/
structure TeamCode where
  defined : Bool
  bearing : ℚ
  distance : ℚ
deriving DecidableEq

def TeamCode.Update (_ : TeamCode) (bearing distance : ℚ) : TeamCode :=
  ⟨true, bearing, distance⟩

def TeamCode.Clear (_ : TeamCode) : TeamCode := ⟨false, 0, 0⟩

def TeamCode.IsDefined (tc : TeamCode) : Bool := tc.defined

/-- Modelled from the spec: decoding a team code into a location via the
reference point (planar surrogate, observed only up to equality). -/
def TeamCode.GetLocation (tc : TeamCode) (ref : GeoPoint) : GeoPoint :=
  ⟨ref.longitude + tc.bearing, ref.latitude + tc.distance⟩

/-! ### Traffic and waypoints -/

/-- FLARM device identifier; defined iff nonzero (sentinel mapping kept
from the source convention). -/
structure FlarmId where
  value : Int
deriving DecidableEq

def FlarmId.IsDefined (id : FlarmId) : Bool := id.value != 0

structure FlarmTraffic where
  id : FlarmId
  location_available : Bool
  location : GeoPoint
deriving DecidableEq

structure TrafficList where
  list : List FlarmTraffic
deriving DecidableEq

/-- TrafficList::FindTraffic: the first entry with the requested id, if
any (a NULL result is embedded as `none`). -/
def TrafficList.FindTraffic (tl : TrafficList) (target : FlarmId) :
    Option FlarmTraffic :=
  tl.list.find? (fun t => t.id == target)

structure Waypoint where
  id : Int
  location : GeoPoint
deriving DecidableEq

structure Waypoints where
  list : List Waypoint
deriving DecidableEq

/-- Waypoints::LookupId: lookup-by-identifier returning an optional
waypoint record. -/
def Waypoints.LookupId (w : Waypoints) (id : Int) : Option Waypoint :=
  w.list.find? (fun wp => wp.id == id)

/-! ### Settings (Computer/Settings.hpp is not in the sources; fields are
the ones GlideComputer.cpp reads, with the Plane fields matching the
PlaneDetailsDialog source) -/

structure PlaneSettings where
  fuel_onboard : ℚ
  fuel_consumption : ℚ
deriving DecidableEq

structure TeamCodeSettings where
  team_code_reference_waypoint : Int
  team_flarm_id : FlarmId
  team_code : TeamCode
deriving DecidableEq

structure TaskSettings where
  safety_height_arrival : ℚ
deriving DecidableEq

structure UTCOffset where
  seconds : Int
deriving DecidableEq

def UTCOffset.ToDuration (u : UTCOffset) : Int := u.seconds

structure GlidePolar where
  mc : ℚ
  s_best_ld : ℚ
deriving DecidableEq

def GlidePolar.GetMC (g : GlidePolar) : ℚ := g.mc

def GlidePolar.GetSBestLD (g : GlidePolar) : ℚ := g.s_best_ld

structure PolarSettings where
  glide_polar_task : GlidePolar
deriving DecidableEq

structure ComputerSettings where
  utc_offset : UTCOffset
  team_code : TeamCodeSettings
  plane : PlaneSettings
  task : TaskSettings
  polar : PolarSettings
deriving DecidableEq

/-! ### Derived state (src/NMEA/Derived.hpp) -/

/-- TeamInfo from NMEA/Derived.hpp, field for field. -/
structure TeamInfo where
  teammate_available : Bool
  flarm_teammate_code_current : Bool
  own_teammate_code : TeamCode
  teammate_vector : GeoVector
  teammate_location : GeoPoint
  flarm_teammate_code : TeamCode
deriving DecidableEq

def TeamInfo.Clear : TeamInfo :=
  ⟨false, false, TeamCode.Clear ⟨false, 0, 0⟩, ⟨0, 0⟩, ⟨0, 0⟩,
   TeamCode.Clear ⟨false, 0, 0⟩⟩

/-- The CommonStats fields that GlideComputer.cpp writes. -/
structure CommonStats where
  height_min_working : ℚ
  height_max_working : ℚ
  height_fraction_working : ℚ
  vario_scale_positive : ℚ
  vario_scale_negative : ℚ
deriving DecidableEq

structure FlyingState where
  flying : Bool
deriving DecidableEq

structure OrderedTaskStats where
  task_finished : Bool
deriving DecidableEq

/-- The outputs of the opaque flight-statistics accumulator
(stats_computer.GetFlightStats()) that GlideComputer.cpp reads during one
tick; supplied as oracle data with the tick input. -/
structure FlightStatsData where
  min_working_height : ℚ
  max_working_height : ℚ
  vario_scale_positive : ℚ
  vario_scale_negative : ℚ
deriving DecidableEq

/-- The slice of DerivedInfo (src/NMEA/Derived.hpp) that the orchestrator
itself reads or writes; the concern-groups it never touches beyond their
validity gates are omitted.  The multiple-inheritance aggregate is
embedded as composition, per the spec's data-model note. -/
structure DerivedInfo where
  date_time_local : BrokenDateTime
  flight : FlyingState
  ordered_task_stats : OrderedTaskStats
  team : TeamInfo
  common_stats : CommonStats
  terrain_base_valid : Bool
  terrain_base : ℚ
  terrain_altitude : ℚ
  trace_history : List ℚ
  fuel_burn_time_remain : Int
  fuel_burn_time_remain_available : Validity
deriving DecidableEq

/-- TerrainInfo::GetTerrainBaseFallback from src/NMEA/Derived.hpp: the
terrain base, falling back to the terrain altitude when the base is not
known. -/
def DerivedInfo.GetTerrainBaseFallback (d : DerivedInfo) : ℚ :=
  if d.terrain_base_valid then d.terrain_base else d.terrain_altitude

/-- Modelled from the spec: DerivedInfo::CalculateWorkingFraction (only
declared in src/NMEA/Derived.hpp): the fraction of the working band
occupied by altitude `h` above the safety height, clamped to [0, 1]. -/
def DerivedInfo.CalculateWorkingFraction (d : DerivedInfo)
    (h safety_height : ℚ) : ℚ :=
  let lo := d.common_stats.height_min_working + safety_height
  let hi := d.common_stats.height_max_working
  if hi ≤ lo then 1
  else stdMax 0 (stdMin 1 ((h - lo) / (hi - lo)))

def DerivedInfo.Clear : DerivedInfo :=
  ⟨BrokenDateTime.Invalid, ⟨false⟩, ⟨false⟩, TeamInfo.Clear,
   ⟨0, 0, 0, 0, 0⟩, false, 0, 0, [], 0, ⟨none⟩⟩

/-! ### Tick input -/

/-- The MoreData sample for one tick together with the per-tick outputs of
the externally-owned, internally-opaque sub-computers (spec section 2
treats them as interfaces only): the `oracle_` fields are the values those
collaborators write into the derived state this tick. -/
structure MoreData where
  time_available : Bool
  time : ℚ
  clock : ℚ
  date_time_utc : BrokenDateTime
  location_available : Bool
  location : GeoPoint
  nav_altitude_available : Bool
  nav_altitude : ℚ
  flarm_traffic : TrafficList
  oracle_terrain_base_valid : Bool
  oracle_terrain_base : ℚ
  oracle_terrain_altitude : ℚ
  oracle_flying : Bool
  oracle_task_finished_after_basic : Bool
  oracle_task_finished_after_more : Bool
  oracle_flight_stats : FlightStatsData
deriving DecidableEq

def MoreData.NavAltitudeAvailable (b : MoreData) : Bool :=
  b.nav_altitude_available

/-! ### Orchestrator state -/

/-- The per-instance state of GlideComputer (GlideComputer.cpp together
with its blackboard): the derived state, the finish snapshot kept by
SaveFinish/RestoreFinish, the cached team reference resolution, and the
trace-history throttle clock. -/
structure GlideComputer where
  calculated : DerivedInfo
  finish_derived_info : DerivedInfo
  team_code_ref_id : Int
  team_code_ref_found : Bool
  team_code_ref_location : GeoPoint
  trace_history_time : SampleClock
deriving DecidableEq

/-- Process-wide state: the file-scope `static PeriodClock
last_team_code_update` of GlideComputer.cpp line 12, shared by every
GlideComputer instance in the process. -/
structure World where
  last_team_code_update : PeriodClock
deriving DecidableEq

def World.Fresh : World := ⟨⟨none⟩⟩

/-- The constructor state: team_code_ref_id is initialised to -1 and the
cleared derived state is installed (Initialise → ResetFlight(true)). -/
def GlideComputer.Create : GlideComputer :=
  ⟨DerivedInfo.Clear, DerivedInfo.Clear, -1, false, ⟨0, 0⟩, ⟨none⟩⟩

/-- Observable pipeline events of one ProcessGPS tick, one constructor per
step of the source, in particular one per opaque sub-computer call. -/
inductive Event where
  | expire
  | processBasic
  | processBasicTask
  | calculateWorkingBand
  | processMoreTask
  | onFinishTask
  | flightTimes
  | onTakeoff
  | onLanding
  | resetFlightStats (full : Bool)
  | saveFinish
  | restoreFinish
  | processAutoTask
  | processVertical
  | processClimbEvents
  | cruiseCompute
  | lookupRef (id : Int)
  | ownTeamCodeUpdate
  | traceAppend
  | traceClear
  | varioScale
  | conditionMonitors
  | fuelBurnStep
deriving DecidableEq

/-- Modelled from the spec: GlideComputerBlackboard::SaveFinish snapshots
the finish-state data. -/
def GlideComputer.SaveFinish (gc : GlideComputer) : GlideComputer :=
  { gc with finish_derived_info := gc.calculated }

/-- Modelled from the spec: GlideComputerBlackboard::RestoreFinish
restores the snapshotted finish-state data so the display reflects
conditions at the finish line; the live flight phase stays current, and
the local date-time stays the one stamped for this tick (spec section 4.1
step 1 recomputes it every tick). -/
def GlideComputer.RestoreFinish (gc : GlideComputer) : GlideComputer :=
  { gc with calculated :=
      { gc.finish_derived_info with
          flight := gc.calculated.flight,
          date_time_local := gc.calculated.date_time_local } }

/-- GlideComputer::DetermineTeamCodeRefLocation: resolve the configured
reference waypoint id, caching the result (including a failed lookup)
keyed by the configured id; re-resolve only when the id changes.  Returns
whether the reference is resolved, the updated instance, and the lookup
events performed. -/
def GlideComputer.DetermineTeamCodeRefLocation (gc : GlideComputer)
    (settings : ComputerSettings) (waypoints : Waypoints) :
    Bool × GlideComputer × List Event :=
  let ts := settings.team_code
  if ts.team_code_reference_waypoint < 0 then (false, gc, [])
  else if ts.team_code_reference_waypoint == gc.team_code_ref_id then
    (gc.team_code_ref_found, gc, [])
  else
    let gc1 := { gc with team_code_ref_id := ts.team_code_reference_waypoint }
    match waypoints.LookupId gc1.team_code_ref_id with
    | none =>
      (false, { gc1 with team_code_ref_found := false },
       [Event.lookupRef ts.team_code_reference_waypoint])
    | some wp =>
      (true, { gc1 with team_code_ref_found := true,
                        team_code_ref_location := wp.location },
       [Event.lookupRef ts.team_code_reference_waypoint])

/-- GlideComputer::CalculateOwnTeamCode: cancel when no reference is
resolved; otherwise recompute the own team code only when the shared
10-second PeriodClock fires. -/
def GlideComputer.CalculateOwnTeamCode (gc : GlideComputer)
    (settings : ComputerSettings) (waypoints : Waypoints) (basic : MoreData)
    (w : World) : GlideComputer × World × List Event :=
  let r := gc.DetermineTeamCodeRefLocation settings waypoints
  if !r.1 then (r.2.1, w, r.2.2)
  else
    let cu := w.last_team_code_update.CheckUpdate basic.clock 10
    if !cu.1 then (r.2.1, ⟨cu.2⟩, r.2.2)
    else
      let v := r.2.1.team_code_ref_location.DistanceBearing basic.location
      ({ r.2.1 with calculated.team.own_teammate_code :=
           (r.2.1.calculated.team.own_teammate_code.Update v.bearing v.distance) },
       ⟨cu.2⟩, r.2.2 ++ [Event.ownTeamCodeUpdate])

/-- ComputeFlarmTeam (static, GlideComputer.cpp): when the configured
contact is absent from the traffic list or lacks a location, only mark the
FLARM team code as not current; otherwise refresh teammate location,
vector, availability and the FLARM team code. -/
def ComputeFlarmTeam (location reference_location : GeoPoint)
    (traffic_list : TrafficList) (target_id : FlarmId)
    (teamcode_info : TeamInfo) : TeamInfo :=
  match traffic_list.FindTraffic target_id with
  | none => { teamcode_info with flarm_teammate_code_current := false }
  | some traffic =>
    if !traffic.location_available then
      { teamcode_info with flarm_teammate_code_current := false }
    else
      let ti := { teamcode_info with
                    teammate_location := traffic.location,
                    teammate_vector := location.DistanceBearing traffic.location,
                    teammate_available := true }
      let v := reference_location.DistanceBearing traffic.location
      { ti with flarm_teammate_code := ti.flarm_teammate_code.Update v.bearing v.distance,
                flarm_teammate_code_current := true }

/-- ComputeTeamCode (static, GlideComputer.cpp): decode the manually
entered team code via the reference point. -/
def ComputeTeamCode (location reference_location : GeoPoint)
    (team_code : TeamCode) (teamcode_info : TeamInfo) : TeamInfo :=
  let loc := team_code.GetLocation reference_location
  { teamcode_info with
      teammate_location := loc,
      teammate_vector := location.DistanceBearing loc,
      teammate_available := true }

/-- GlideComputer::CalculateTeammateBearingRange: choose the teammate
source by configuration precedence (live FLARM contact, then manual code,
else clear), after resolving the reference waypoint. -/
def GlideComputer.CalculateTeammateBearingRange (gc : GlideComputer)
    (settings : ComputerSettings) (waypoints : Waypoints) (basic : MoreData) :
    GlideComputer × List Event :=
  let ts := settings.team_code
  let r := gc.DetermineTeamCodeRefLocation settings waypoints
  if !r.1 then (r.2.1, r.2.2)
  else if ts.team_flarm_id.IsDefined then
    ({ r.2.1 with calculated.team :=
         (ComputeFlarmTeam basic.location r.2.1.team_code_ref_location
           basic.flarm_traffic ts.team_flarm_id r.2.1.calculated.team) },
     r.2.2)
  else if ts.team_code.IsDefined then
    let ti := { r.2.1.calculated.team with
                  flarm_teammate_code := r.2.1.calculated.team.flarm_teammate_code.Clear }
    ({ r.2.1 with calculated.team :=
         (ComputeTeamCode basic.location r.2.1.team_code_ref_location
           ts.team_code ti) },
     r.2.2)
  else
    ({ r.2.1 with calculated.team :=
         { r.2.1.calculated.team with
             teammate_available := false,
             flarm_teammate_code := r.2.1.calculated.team.flarm_teammate_code.Clear } },
     r.2.2)

/-- GlideComputer::CalculateWorkingBand, line for line: the minimum
working height from the flight statistics, raised to the terrain base plus
arrival safety height when the terrain base is valid; the maximum working
height clamped from below by the minimum; the working fraction defaulting
to 1 and recomputed from the navigation altitude when available. -/
def CalculateWorkingBand (basic : MoreData) (settings : ComputerSettings)
    (calculated : DerivedInfo) : DerivedInfo :=
  let c0 := { calculated with common_stats.height_min_working :=
                (basic.oracle_flight_stats.min_working_height) }
  let c1 :=
    if c0.terrain_base_valid then
      { c0 with common_stats.height_min_working :=
          (stdMax c0.common_stats.height_min_working
            (c0.GetTerrainBaseFallback + settings.task.safety_height_arrival)) }
    else c0
  let c2 := { c1 with common_stats.height_max_working :=
                (stdMax c1.common_stats.height_min_working
                  basic.oracle_flight_stats.max_working_height) }
  let c3 := { c2 with common_stats.height_fraction_working := 1 }
  if basic.NavAltitudeAvailable then
    let c4 := { c3 with common_stats.height_max_working :=
                  (stdMax c3.common_stats.height_max_working basic.nav_altitude) }
    { c4 with common_stats.height_fraction_working :=
        (c4.CalculateWorkingFraction basic.nav_altitude
          settings.task.safety_height_arrival) }
  else c3

/-- GlideComputer::CalculateVarioScale. -/
def CalculateVarioScale (basic : MoreData) (settings : ComputerSettings)
    (calculated : DerivedInfo) : DerivedInfo :=
  { calculated with
      common_stats.vario_scale_positive :=
        (stdMax basic.oracle_flight_stats.vario_scale_positive
          settings.polar.glide_polar_task.GetMC),
      common_stats.vario_scale_negative :=
        (stdMin basic.oracle_flight_stats.vario_scale_negative
          (-settings.polar.glide_polar_task.GetSBestLD)) }

/-- The machine epsilon of IEEE double precision (2 to the power -52),
used by the fuel-burn guard in the source. -/
def dblEpsilon : ℚ := 1 / 4503599627370496

/-- Truncation toward zero, the C++ double-to-int conversion applied when
the fuel estimate is stored into the `int` field of DerivedInfo. -/
def ratTrunc (q : ℚ) : Int :=
  if 0 ≤ q.num then (q.num.natAbs / q.den : Nat)
  else -((q.num.natAbs / q.den : Nat) : Int)

/-- GlideComputer::CalculateFuelBurnTimeRemain: skipped entirely when the
configured consumption rate is negative or zero within machine epsilon;
otherwise stores onboard/consumption hours as seconds and stamps the
validity with the current clock. -/
def CalculateFuelBurnTimeRemain (settings : ComputerSettings)
    (basic : MoreData) (calculated : DerivedInfo) : DerivedInfo :=
  let plane := settings.plane
  if plane.fuel_consumption < 0 ∨ fabs plane.fuel_consumption ≤ dblEpsilon then
    calculated
  else
    { calculated with
        fuel_burn_time_remain :=
          (ratTrunc (plane.fuel_onboard / plane.fuel_consumption * 60 * 60)),
        fuel_burn_time_remain_available :=
          (calculated.fuel_burn_time_remain_available.Update basic.clock) }

/-- GlideComputer::OnTakeoff: reset the per-flight statistics (full =
false) and snapshot current finish-state data in case the flight never
reaches an explicit finish. -/
def GlideComputer.OnTakeoff (gc : GlideComputer) :
    GlideComputer × List Event :=
  (gc.SaveFinish,
   [Event.onTakeoff, Event.resetFlightStats false, Event.saveFinish])

/-- GlideComputer::OnLanding: restore the finish snapshot iff the ordered
task was already finished. -/
def GlideComputer.OnLanding (gc : GlideComputer) :
    GlideComputer × List Event :=
  if gc.calculated.ordered_task_stats.task_finished then
    (gc.RestoreFinish, [Event.onLanding, Event.restoreFinish])
  else (gc, [Event.onLanding])

/-- GlideComputer::TakeoffLanding: react to the edge between the flying
flag computed this tick and the previous tick's flag. -/
def GlideComputer.TakeoffLanding (gc : GlideComputer) (last_flying : Bool) :
    GlideComputer × List Event :=
  if gc.calculated.flight.flying && !last_flying then gc.OnTakeoff
  else if !gc.calculated.flight.flying && last_flying then gc.OnLanding
  else (gc, [])

/-- GlideComputer::OnFinishTask: snapshot the finish-state data. -/
def GlideComputer.OnFinishTask (gc : GlideComputer) :
    GlideComputer × List Event :=
  (gc.SaveFinish, [Event.onFinishTask, Event.saveFinish])

/-- The ProcessGPS steps before the team-code block, in source order:
local date-time stamping, field expiry, ProcessBasic, ProcessBasicTask,
CalculateWorkingBand, ProcessMoreTask, the task-finish edge, FlightTimes,
TakeoffLanding, ProcessAutoTask, ProcessVertical, ProcessClimbEvents and
the cruise computation.  Opaque sub-computers appear as their oracle
outputs plus an event. -/
def GlideComputer.ProcessGPSPreTeam (gc : GlideComputer)
    (settings : ComputerSettings) (basic : MoreData) :
    GlideComputer × List Event :=
  let last_flying := gc.calculated.flight.flying
  let dtl :=
    if basic.time_available then
      if basic.date_time_utc.IsDateCredible then
        basic.date_time_utc.addSeconds settings.utc_offset.ToDuration
      else
        ⟨BrokenDate.Invalid,
         basic.date_time_utc.GetTime.addSeconds settings.utc_offset.ToDuration⟩
    else BrokenDateTime.Invalid
  let gc1 := { gc with calculated.date_time_local := dtl }
  let gc2 := { gc1 with
                 calculated.terrain_base_valid := basic.oracle_terrain_base_valid,
                 calculated.terrain_base := basic.oracle_terrain_base,
                 calculated.terrain_altitude := basic.oracle_terrain_altitude }
  let last_finished := gc2.calculated.ordered_task_stats.task_finished
  let gc3 := { gc2 with calculated.ordered_task_stats.task_finished :=
                 (basic.oracle_task_finished_after_basic) }
  let gc4 := { gc3 with calculated :=
                 (CalculateWorkingBand basic settings gc3.calculated) }
  let gc5 := { gc4 with calculated.ordered_task_stats.task_finished :=
                 (basic.oracle_task_finished_after_more) }
  let fin :=
    if !last_finished && gc5.calculated.ordered_task_stats.task_finished then
      gc5.OnFinishTask
    else (gc5, [])
  let gc6 := { fin.1 with calculated.flight.flying := basic.oracle_flying }
  let tol := gc6.TakeoffLanding last_flying
  (tol.1,
   [Event.expire, Event.processBasic, Event.processBasicTask,
    Event.calculateWorkingBand, Event.processMoreTask] ++ fin.2 ++
   [Event.flightTimes] ++ tol.2 ++
   [Event.processAutoTask, Event.processVertical, Event.processClimbEvents,
    Event.cruiseCompute])

/-- The ProcessGPS steps after the teammate block, in source order: the
trace-history throttle (minimum 500 ms, maximum 30 s, clearing on a
backward time jump), CalculateVarioScale, the condition monitors and
CalculateFuelBurnTimeRemain. -/
def GlideComputer.ProcessGPSPostTeam (gc : GlideComputer)
    (settings : ComputerSettings) (basic : MoreData) :
    GlideComputer × List Event :=
  let tr :=
    if basic.time_available then
      let u := gc.trace_history_time.Update basic.time (1 / 2) 30
      let gcu := { gc with trace_history_time := u.2 }
      if 0 < u.1 then
        ({ gcu with calculated.trace_history :=
             (gcu.calculated.trace_history ++ [basic.time]) },
         [Event.traceAppend])
      else if u.1 < 0 then
        ({ gcu with calculated.trace_history := ([] : List ℚ) },
         [Event.traceClear])
      else (gcu, [])
    else (gc, [])
  let gc7 := { tr.1 with calculated :=
                 (CalculateVarioScale basic settings tr.1.calculated) }
  let gc8 := { gc7 with calculated :=
                 (CalculateFuelBurnTimeRemain settings basic gc7.calculated) }
  (gc8, tr.2 ++ [Event.varioScale, Event.conditionMonitors, Event.fuelBurnStep])

/-- GlideComputer::ProcessGPS: one tick of the orchestration pipeline over
the per-instance state and the process-wide world, returning the event
trace of the tick.  The boolean idle-clock return value of the source is
outside every claim and omitted. -/
def GlideComputer.ProcessGPS (gc : GlideComputer) (w : World)
    (settings : ComputerSettings) (waypoints : Waypoints) (basic : MoreData) :
    GlideComputer × World × List Event :=
  let pre := gc.ProcessGPSPreTeam settings basic
  let tm := pre.1.CalculateOwnTeamCode settings waypoints basic w
  let mate := tm.1.CalculateTeammateBearingRange settings waypoints basic
  let post := mate.1.ProcessGPSPostTeam settings basic
  (post.1, tm.2.1, pre.2 ++ tm.2.2 ++ mate.2 ++ post.2)

/-- Iterate ProcessGPS over a list of ticks, collecting the event trace of
every tick. -/
def runTicks (settings : ComputerSettings) (waypoints : Waypoints) :
    GlideComputer → World → List MoreData →
    GlideComputer × World × List (List Event)
  | gc, w, [] => (gc, w, [])
  | gc, w, b :: bs =>
    let r := gc.ProcessGPS w settings waypoints b
    let rest := runTicks settings waypoints r.1 r.2.1 bs
    (rest.1, rest.2.1, r.2.2 :: rest.2.2)

/-- The clock stamps of the ticks on which the own-team-code recompute
actually ran. -/
def fireTimes (settings : ComputerSettings) (waypoints : Waypoints) :
    GlideComputer → World → List MoreData → List ℚ
  | _, _, [] => []
  | gc, w, b :: bs =>
    let r := gc.ProcessGPS w settings waypoints b
    (if Event.ownTeamCodeUpdate ∈ r.2.2 then [b.clock] else []) ++
      fireTimes settings waypoints r.1 r.2.1 bs

/-- `evBefore a b l` holds when the first occurrence of `a` in `l` comes
strictly before any occurrence of `b`. -/
def evBefore (a b : Event) : List Event → Bool
  | [] => false
  | x :: xs => x == a || (x != b && evBefore a b xs)

/-! ### Concrete fixtures for the testable scenarios -/

def baseStats : FlightStatsData := ⟨0, 0, 0, 0⟩

/-- A neutral tick: time available at 0, grounded, no task activity. -/
def baseTick : MoreData :=
  ⟨true, 0, 0, BrokenDateTime.Invalid, true, ⟨0, 0⟩, false, 0, ⟨[]⟩,
   false, 0, 0, false, false, false, baseStats⟩

/-- Empty settings: no team reference, no fuel data, zero polar. -/
def baseSettings : ComputerSettings :=
  ⟨⟨0⟩, ⟨-1, ⟨0⟩, ⟨false, 0, 0⟩⟩, ⟨0, 0⟩, ⟨0⟩, ⟨⟨0, 0⟩⟩⟩

/-- Settings with reference waypoint id 1 configured. -/
def teamSettings : ComputerSettings :=
  { baseSettings with team_code.team_code_reference_waypoint := 1 }

/-- A store containing waypoint id 1. -/
def teamWaypoints : Waypoints := ⟨[⟨1, ⟨3, 4⟩⟩]⟩

def emptyWaypoints : Waypoints := ⟨[]⟩

/-- Thirty samples spaced one second apart, reference resolved. -/
def c8Ticks : List MoreData :=
  (List.range 30).map
    (fun i => { baseTick with clock := (i : ℚ), time := (i : ℚ) })

/-- The flying sequence [false, false, true, true, false]. -/
def c2Ticks : List MoreData :=
  [{ baseTick with oracle_flying := false },
   { baseTick with oracle_flying := false },
   { baseTick with oracle_flying := true },
   { baseTick with oracle_flying := true },
   { baseTick with oracle_flying := false }]

/-- A tick on which the task computer reports the ordered task newly
finished. -/
def finishTick : MoreData :=
  { baseTick with oracle_task_finished_after_basic := true,
                  oracle_task_finished_after_more := true }

/-- The state after one tick with reference id 1 configured but an empty
waypoint store: the failed lookup is cached. -/
def c7StateAfterFailedLookup : GlideComputer :=
  (GlideComputer.ProcessGPS GlideComputer.Create World.Fresh teamSettings
    emptyWaypoints baseTick).1

/-- The working-band invariant of the spec: the maximum working height
never falls below the minimum. -/
def WorkingBandInv (d : DerivedInfo) : Prop :=
  d.common_stats.height_min_working ≤ d.common_stats.height_max_working

instance (d : DerivedInfo) : Decidable (WorkingBandInv d) := by
  unfold WorkingBandInv; infer_instance

/-! ### Helper lemmas -/

theorem le_stdMax_left (a b : ℚ) : a ≤ stdMax a b := by
  unfold stdMax; split
  · exact le_of_lt (by assumption)
  · exact le_refl a

theorem le_stdMax_trans {c a : ℚ} (b : ℚ) (h : c ≤ a) : c ≤ stdMax a b := by
  exact le_trans h (le_stdMax_left a b)

/-- TakeoffLanding unfolded into its decision tree. -/
theorem takeoffLanding_def (gc : GlideComputer) (lf : Bool) :
    gc.TakeoffLanding lf =
      if gc.calculated.flight.flying && !lf then
        (gc.SaveFinish,
         [Event.onTakeoff, Event.resetFlightStats false, Event.saveFinish])
      else if !gc.calculated.flight.flying && lf then
        (if gc.calculated.ordered_task_stats.task_finished then
           (gc.RestoreFinish, [Event.onLanding, Event.restoreFinish])
         else (gc, [Event.onLanding]))
      else (gc, []) := rfl

/-- The event list of the pre-team phase, as a function of the previous
state and the oracle outputs. -/
theorem preTeam_events_eq (gc : GlideComputer) (settings : ComputerSettings)
    (basic : MoreData) :
    (gc.ProcessGPSPreTeam settings basic).2 =
      [Event.expire, Event.processBasic, Event.processBasicTask,
       Event.calculateWorkingBand, Event.processMoreTask] ++
      (if !gc.calculated.ordered_task_stats.task_finished &&
          basic.oracle_task_finished_after_more then
         [Event.onFinishTask, Event.saveFinish]
       else []) ++
      [Event.flightTimes] ++
      (if basic.oracle_flying && !gc.calculated.flight.flying then
         [Event.onTakeoff, Event.resetFlightStats false, Event.saveFinish]
       else if !basic.oracle_flying && gc.calculated.flight.flying then
         (if basic.oracle_task_finished_after_more then
            [Event.onLanding, Event.restoreFinish]
          else [Event.onLanding])
       else []) ++
      [Event.processAutoTask, Event.processVertical, Event.processClimbEvents,
       Event.cruiseCompute] := by
  cases h1 : gc.calculated.ordered_task_stats.task_finished <;>
    cases h2 : basic.oracle_task_finished_after_more <;>
      cases h3 : basic.oracle_flying <;>
        cases h4 : gc.calculated.flight.flying <;>
          simp [GlideComputer.ProcessGPSPreTeam, GlideComputer.TakeoffLanding,
                GlideComputer.OnTakeoff, GlideComputer.OnLanding,
                GlideComputer.OnFinishTask, GlideComputer.SaveFinish,
                GlideComputer.RestoreFinish, h1, h2, h3, h4]

/-- The reference resolution emits at most one lookup event. -/
theorem determine_events (gc : GlideComputer) (s : ComputerSettings)
    (wps : Waypoints) :
    (gc.DetermineTeamCodeRefLocation s wps).2.2 = [] ∨
    ∃ id, (gc.DetermineTeamCodeRefLocation s wps).2.2 = [Event.lookupRef id] := by
  unfold GlideComputer.DetermineTeamCodeRefLocation
  dsimp only
  split
  · exact Or.inl rfl
  · split
    · exact Or.inl rfl
    · split <;> exact Or.inr ⟨_, rfl⟩

/-- The reference resolution never touches the derived state, the finish
snapshot or the trace clock. -/
theorem determine_state (gc : GlideComputer) (s : ComputerSettings)
    (wps : Waypoints) :
    (gc.DetermineTeamCodeRefLocation s wps).2.1.calculated = gc.calculated ∧
    (gc.DetermineTeamCodeRefLocation s wps).2.1.finish_derived_info =
      gc.finish_derived_info ∧
    (gc.DetermineTeamCodeRefLocation s wps).2.1.trace_history_time =
      gc.trace_history_time := by
  unfold GlideComputer.DetermineTeamCodeRefLocation
  dsimp only
  split
  · exact ⟨rfl, rfl, rfl⟩
  · split
    · exact ⟨rfl, rfl, rfl⟩
    · split <;> exact ⟨rfl, rfl, rfl⟩

/-- Events of the own-team-code step are lookups or the one update. -/
theorem ownTeamCode_events (gc : GlideComputer) (s : ComputerSettings)
    (wps : Waypoints) (basic : MoreData) (w : World) :
    ∀ e ∈ (gc.CalculateOwnTeamCode s wps basic w).2.2,
      e = Event.ownTeamCodeUpdate ∨ ∃ id, e = Event.lookupRef id := by
  intro e he
  unfold GlideComputer.CalculateOwnTeamCode at he
  rcases determine_events gc s wps with h | ⟨id, h⟩ <;>
    simp only [h] at he <;> split at he <;> try split at he
  all_goals simp at he
  all_goals first
    | (exact Or.inl he)
    | (rcases he with he | he
       · exact Or.inr ⟨id, he⟩
       · exact Or.inl he)
    | (exact Or.inr ⟨id, he⟩)

/-- The own-team-code step only writes the own team code: every other
derived field, the finish snapshot and the trace clock are unchanged. -/
theorem ownTeamCode_state (gc : GlideComputer) (s : ComputerSettings)
    (wps : Waypoints) (basic : MoreData) (w : World) :
    (gc.CalculateOwnTeamCode s wps basic w).1.calculated.date_time_local =
      gc.calculated.date_time_local ∧
    (gc.CalculateOwnTeamCode s wps basic w).1.calculated.common_stats =
      gc.calculated.common_stats ∧
    (gc.CalculateOwnTeamCode s wps basic w).1.calculated.trace_history =
      gc.calculated.trace_history ∧
    (gc.CalculateOwnTeamCode s wps basic w).1.calculated.flight =
      gc.calculated.flight ∧
    (gc.CalculateOwnTeamCode s wps basic w).1.calculated.ordered_task_stats =
      gc.calculated.ordered_task_stats ∧
    (gc.CalculateOwnTeamCode s wps basic w).1.calculated.fuel_burn_time_remain =
      gc.calculated.fuel_burn_time_remain ∧
    (gc.CalculateOwnTeamCode s wps basic w).1.calculated.fuel_burn_time_remain_available =
      gc.calculated.fuel_burn_time_remain_available ∧
    (gc.CalculateOwnTeamCode s wps basic w).1.finish_derived_info =
      gc.finish_derived_info ∧
    (gc.CalculateOwnTeamCode s wps basic w).1.trace_history_time =
      gc.trace_history_time := by
  obtain ⟨hc, hf, ht⟩ := determine_state gc s wps
  unfold GlideComputer.CalculateOwnTeamCode
  dsimp only
  split
  · simp [hc, hf, ht]
  · split
    · simp [hc, hf, ht]
    · simp [hc, hf, ht]

/-- Events of the teammate step are lookup events only. -/
theorem mate_events (gc : GlideComputer) (s : ComputerSettings)
    (wps : Waypoints) (basic : MoreData) :
    ∀ e ∈ (gc.CalculateTeammateBearingRange s wps basic).2,
      ∃ id, e = Event.lookupRef id := by
  intro e he
  unfold GlideComputer.CalculateTeammateBearingRange at he
  rcases determine_events gc s wps with h | ⟨id, h⟩ <;>
    simp only [h] at he <;> split at he <;> try split at he
  all_goals try split at he
  all_goals simp at he
  all_goals exact ⟨id, he⟩

/-- The teammate step only writes the team concern-group. -/
theorem mate_state (gc : GlideComputer) (s : ComputerSettings)
    (wps : Waypoints) (basic : MoreData) :
    (gc.CalculateTeammateBearingRange s wps basic).1.calculated.date_time_local =
      gc.calculated.date_time_local ∧
    (gc.CalculateTeammateBearingRange s wps basic).1.calculated.common_stats =
      gc.calculated.common_stats ∧
    (gc.CalculateTeammateBearingRange s wps basic).1.calculated.trace_history =
      gc.calculated.trace_history ∧
    (gc.CalculateTeammateBearingRange s wps basic).1.calculated.flight =
      gc.calculated.flight ∧
    (gc.CalculateTeammateBearingRange s wps basic).1.calculated.ordered_task_stats =
      gc.calculated.ordered_task_stats ∧
    (gc.CalculateTeammateBearingRange s wps basic).1.calculated.fuel_burn_time_remain =
      gc.calculated.fuel_burn_time_remain ∧
    (gc.CalculateTeammateBearingRange s wps basic).1.calculated.fuel_burn_time_remain_available =
      gc.calculated.fuel_burn_time_remain_available ∧
    (gc.CalculateTeammateBearingRange s wps basic).1.finish_derived_info =
      gc.finish_derived_info ∧
    (gc.CalculateTeammateBearingRange s wps basic).1.trace_history_time =
      gc.trace_history_time := by
  obtain ⟨hc, hf, ht⟩ := determine_state gc s wps
  unfold GlideComputer.CalculateTeammateBearingRange
  dsimp only
  split
  · simp [hc, hf, ht]
  · split
    · simp [hc, hf, ht]
    · split <;> simp [hc, hf, ht]

/-- Events of the post-team phase. -/
theorem post_events (gc : GlideComputer) (s : ComputerSettings)
    (basic : MoreData) :
    ∀ e ∈ (gc.ProcessGPSPostTeam s basic).2,
      e = Event.traceAppend ∨ e = Event.traceClear ∨ e = Event.varioScale ∨
      e = Event.conditionMonitors ∨ e = Event.fuelBurnStep := by
  intro e he
  unfold GlideComputer.ProcessGPSPostTeam at he
  dsimp only at he
  rcases List.mem_append.1 he with h | h
  · split at h
    · split at h
      · simp at h
        tauto
      · split at h
        · simp at h
          tauto
        · simp at h
    · simp at h
  · simp at h
    tauto

/-- The post-team phase preserves the date-time stamp, the flight and task
flags, the working-band bounds and the finish snapshot. -/
theorem post_state (gc : GlideComputer) (s : ComputerSettings)
    (basic : MoreData) :
    (gc.ProcessGPSPostTeam s basic).1.calculated.date_time_local =
      gc.calculated.date_time_local ∧
    (gc.ProcessGPSPostTeam s basic).1.calculated.common_stats.height_min_working =
      gc.calculated.common_stats.height_min_working ∧
    (gc.ProcessGPSPostTeam s basic).1.calculated.common_stats.height_max_working =
      gc.calculated.common_stats.height_max_working ∧
    (gc.ProcessGPSPostTeam s basic).1.calculated.flight =
      gc.calculated.flight ∧
    (gc.ProcessGPSPostTeam s basic).1.calculated.ordered_task_stats =
      gc.calculated.ordered_task_stats ∧
    (gc.ProcessGPSPostTeam s basic).1.calculated.team =
      gc.calculated.team ∧
    (gc.ProcessGPSPostTeam s basic).1.finish_derived_info =
      gc.finish_derived_info := by
  unfold GlideComputer.ProcessGPSPostTeam CalculateVarioScale
    CalculateFuelBurnTimeRemain
  dsimp only
  repeat' split
  all_goals simp

/-- One tick's events are the concatenation of the four phases, in source
order. -/
theorem processGPS_events (gc : GlideComputer) (w : World)
    (s : ComputerSettings) (wps : Waypoints) (basic : MoreData) :
    (gc.ProcessGPS w s wps basic).2.2 =
      (gc.ProcessGPSPreTeam s basic).2 ++
      ((gc.ProcessGPSPreTeam s basic).1.CalculateOwnTeamCode s wps basic
        w).2.2 ++
      (((gc.ProcessGPSPreTeam s basic).1.CalculateOwnTeamCode s wps basic
          w).1.CalculateTeammateBearingRange s wps basic).2 ++
      ((((gc.ProcessGPSPreTeam s basic).1.CalculateOwnTeamCode s wps basic
            w).1.CalculateTeammateBearingRange s wps
          basic).1.ProcessGPSPostTeam s basic).2 := rfl

/-- One tick's final instance state, phase by phase. -/
theorem processGPS_state (gc : GlideComputer) (w : World)
    (s : ComputerSettings) (wps : Waypoints) (basic : MoreData) :
    (gc.ProcessGPS w s wps basic).1 =
      ((((gc.ProcessGPSPreTeam s basic).1.CalculateOwnTeamCode s wps basic
            w).1.CalculateTeammateBearingRange s wps
          basic).1.ProcessGPSPostTeam s basic).1 := rfl

/-- The world is only touched by the own-team-code step. -/
theorem processGPS_world (gc : GlideComputer) (w : World)
    (s : ComputerSettings) (wps : Waypoints) (basic : MoreData) :
    (gc.ProcessGPS w s wps basic).2.1 =
      ((gc.ProcessGPSPreTeam s basic).1.CalculateOwnTeamCode s wps basic
        w).2.1 := rfl

/-- Everything the pre-team phase can emit. -/
theorem preTeam_mem (gc : GlideComputer) (s : ComputerSettings)
    (basic : MoreData) :
    ∀ e ∈ (gc.ProcessGPSPreTeam s basic).2,
      e ∈ [Event.expire, Event.processBasic, Event.processBasicTask,
           Event.calculateWorkingBand, Event.processMoreTask,
           Event.onFinishTask, Event.saveFinish, Event.flightTimes,
           Event.onTakeoff, Event.resetFlightStats false, Event.onLanding,
           Event.restoreFinish, Event.processAutoTask, Event.processVertical,
           Event.processClimbEvents, Event.cruiseCompute] := by
  intro e he
  rw [preTeam_events_eq] at he
  simp only [List.mem_append] at he
  rcases he with ((((h | h) | h) | h) | h)
  · simp at h ⊢
    tauto
  · split at h
    · simp at h ⊢
      tauto
    · simp at h
  · simp at h ⊢
    tauto
  · split at h
    · simp at h ⊢
      tauto
    · split at h
      · split at h
        · simp at h ⊢
          tauto
        · simp at h ⊢
          tauto
      · simp at h
  · simp at h ⊢
    tauto

theorem preTeam_no_ownUpdate (gc : GlideComputer) (s : ComputerSettings)
    (basic : MoreData) :
    Event.ownTeamCodeUpdate ∉ (gc.ProcessGPSPreTeam s basic).2 := by
  intro h
  have hm := preTeam_mem gc s basic _ h
  simp at hm

theorem mate_no_ownUpdate (gc : GlideComputer) (s : ComputerSettings)
    (wps : Waypoints) (basic : MoreData) :
    Event.ownTeamCodeUpdate ∉ (gc.CalculateTeammateBearingRange s wps basic).2 := by
  intro h
  obtain ⟨id, hid⟩ := mate_events gc s wps basic _ h
  exact Event.noConfusion hid

theorem post_no_ownUpdate (gc : GlideComputer) (s : ComputerSettings)
    (basic : MoreData) :
    Event.ownTeamCodeUpdate ∉ (gc.ProcessGPSPostTeam s basic).2 := by
  intro h
  rcases post_events gc s basic _ h with h1 | h1 | h1 | h1 | h1 <;>
    exact Event.noConfusion h1

/-- The own-team-code update event occurs in a tick's events exactly when
the own-team-code step emitted it. -/
theorem processGPS_ownUpdate_mem (gc : GlideComputer) (w : World)
    (s : ComputerSettings) (wps : Waypoints) (basic : MoreData) :
    (Event.ownTeamCodeUpdate ∈ (gc.ProcessGPS w s wps basic).2.2 ↔
     Event.ownTeamCodeUpdate ∈
       ((gc.ProcessGPSPreTeam s basic).1.CalculateOwnTeamCode s wps basic
         w).2.2) := by
  rw [processGPS_events]
  simp only [List.mem_append]
  constructor
  · rintro (((h | h) | h) | h)
    · exact absurd h (preTeam_no_ownUpdate gc s basic)
    · exact h
    · exact absurd h (mate_no_ownUpdate _ s wps basic)
    · exact absurd h (post_no_ownUpdate _ s basic)
  · intro h
    exact Or.inl (Or.inl (Or.inr h))

/-- Behaviour of the own-team-code throttle: when the update fires, the
shared clock is re-stamped with this tick's clock and at least ten seconds
had elapsed (or the clock had never fired); when it does not fire, the
shared clock is unchanged. -/
theorem ownTeamCode_throttle (gc : GlideComputer) (s : ComputerSettings)
    (wps : Waypoints) (basic : MoreData) (w : World) :
    (Event.ownTeamCodeUpdate ∈ (gc.CalculateOwnTeamCode s wps basic w).2.2 →
       (gc.CalculateOwnTeamCode s wps basic w).2.1.last_team_code_update.last_update =
         some basic.clock ∧
       (w.last_team_code_update.last_update = none ∨
        ∃ t, w.last_team_code_update.last_update = some t ∧
          10 ≤ basic.clock - t)) ∧
    (Event.ownTeamCodeUpdate ∉ (gc.CalculateOwnTeamCode s wps basic w).2.2 →
       (gc.CalculateOwnTeamCode s wps basic w).2.1 = w) := by
  have hdet := determine_events gc s wps
  unfold GlideComputer.CalculateOwnTeamCode
  dsimp only
  split
  · constructor
    · intro h
      rcases hdet with hd | ⟨id, hd⟩ <;> rw [hd] at h <;> simp at h
    · intro _
      rfl
  · unfold PeriodClock.CheckUpdate
    rcases hw : w.last_team_code_update.last_update with _ | t
    · simp only [hw]
      constructor
      · intro _
        exact ⟨rfl, Or.inl trivial⟩
      · intro h
        simp at h
    · simp only [hw]
      split
      · constructor
        · intro _
          exact ⟨rfl, Or.inr ⟨t, rfl, by assumption⟩⟩
        · intro h
          simp at h
      · constructor
        · intro h
          rcases hdet with hd | ⟨id, hd⟩ <;> rw [hd] at h <;> simp at h
        · intro _
          cases w
          rfl

/-- Consecutive own-team-code recomputations are at least ten seconds of
clock apart, for any tick sequence and any starting state: the clock is
re-stamped exactly on a fire, and a fire with a stamped clock requires ten
elapsed seconds. -/
theorem fireTimes_chain_from (s : ComputerSettings) (wps : Waypoints) :
    ∀ (bs : List MoreData) (gc : GlideComputer) (w : World),
      List.Chain' (fun a b => a + 10 ≤ b) (fireTimes s wps gc w bs) ∧
      (∀ t, w.last_team_code_update.last_update = some t →
        List.Chain (fun a b => a + 10 ≤ b) t (fireTimes s wps gc w bs))
  | [], _, _ => ⟨List.chain'_nil, fun _ _ => List.Chain.nil⟩
  | b :: bs, gc, w => by
    have hspec := ownTeamCode_throttle (gc.ProcessGPSPreTeam s b).1 s wps b w
    by_cases hmem : Event.ownTeamCodeUpdate ∈ (gc.ProcessGPS w s wps b).2.2
    · have hmem2 := (processGPS_ownUpdate_mem gc w s wps b).1 hmem
      obtain ⟨hstamp, hgap⟩ := hspec.1 hmem2
      have hw2 : (gc.ProcessGPS w s wps
          b).2.1.last_team_code_update.last_update = some b.clock := by
        rw [processGPS_world]
        exact hstamp
      have hrest := fireTimes_chain_from s wps bs (gc.ProcessGPS w s wps b).1
        (gc.ProcessGPS w s wps b).2.1
      have hfire : fireTimes s wps gc w (b :: bs) =
          b.clock :: fireTimes s wps (gc.ProcessGPS w s wps b).1
            (gc.ProcessGPS w s wps b).2.1 bs := by
        rw [fireTimes]
        rw [if_pos hmem]
        rfl
      rw [hfire]
      refine ⟨hrest.2 b.clock hw2, ?_⟩
      intro t ht
      refine List.Chain.cons ?_ (hrest.2 b.clock hw2)
      rcases hgap with hnone | ⟨u, hu, hle⟩
      · rw [ht] at hnone
        exact absurd hnone (by simp)
      · rw [ht] at hu
        injection hu with hu
        subst hu
        linarith
    · have hw0 := hspec.2
        (fun hc => hmem ((processGPS_ownUpdate_mem gc w s wps b).2 hc))
      have hw2 : (gc.ProcessGPS w s wps b).2.1 = w := by
        rw [processGPS_world]
        exact hw0
      have hfire : fireTimes s wps gc w (b :: bs) =
          fireTimes s wps (gc.ProcessGPS w s wps b).1
            (gc.ProcessGPS w s wps b).2.1 bs := by
        rw [fireTimes]
        rw [if_neg hmem]
        rfl
      rw [hfire, hw2]
      exact fireTimes_chain_from s wps bs (gc.ProcessGPS w s wps b).1 w

/-- CalculateWorkingBand establishes the working-band invariant for every
input: the maximum is clamped from below by the minimum. -/
theorem calculateWorkingBand_inv (basic : MoreData) (s : ComputerSettings)
    (c : DerivedInfo) : WorkingBandInv (CalculateWorkingBand basic s c) := by
  unfold WorkingBandInv CalculateWorkingBand
  dsimp only
  split
  · split
    · exact le_stdMax_trans _ (le_stdMax_left _ _)
    · exact le_stdMax_trans _ (le_stdMax_left _ _)
  · split
    · exact le_stdMax_left _ _
    · exact le_stdMax_left _ _

set_option maxHeartbeats 2000000 in
/-- The pre-team phase re-establishes the working-band invariant on the
derived state and preserves it on the finish snapshot. -/
theorem preTeam_inv (gc : GlideComputer) (s : ComputerSettings)
    (basic : MoreData) (h : WorkingBandInv gc.finish_derived_info) :
    WorkingBandInv (gc.ProcessGPSPreTeam s basic).1.calculated ∧
    WorkingBandInv (gc.ProcessGPSPreTeam s basic).1.finish_derived_info := by
  have hband : ∀ c, (CalculateWorkingBand basic s
        c).common_stats.height_min_working ≤
      (CalculateWorkingBand basic s c).common_stats.height_max_working :=
    fun c => calculateWorkingBand_inv basic s c
  unfold WorkingBandInv at h ⊢
  cases h1 : gc.calculated.ordered_task_stats.task_finished <;>
    cases h2 : basic.oracle_task_finished_after_more <;>
      cases h3 : basic.oracle_flying <;>
        cases h4 : gc.calculated.flight.flying <;>
          simp [GlideComputer.ProcessGPSPreTeam, GlideComputer.TakeoffLanding,
                GlideComputer.OnTakeoff, GlideComputer.OnLanding,
                GlideComputer.OnFinishTask, GlideComputer.SaveFinish,
                GlideComputer.RestoreFinish, h1, h2, h3, h4] <;>
          first
            | exact ⟨hband _, h⟩
            | exact ⟨hband _, hband _⟩
            | exact hband _
            | exact h

/-- CalculateWorkingBand leaves the local date-time untouched. -/
theorem calculateWorkingBand_dtl (basic : MoreData) (s : ComputerSettings)
    (c : DerivedInfo) :
    (CalculateWorkingBand basic s c).date_time_local = c.date_time_local := by
  unfold CalculateWorkingBand
  dsimp only
  split <;> split <;> rfl

set_option maxHeartbeats 2000000 in
/-- The pre-team phase stamps the local date-time from the raw UTC time
and the configured offset, and nothing later in the phase (in particular a
landing restore) changes it. -/
theorem preTeam_dtl (gc : GlideComputer) (s : ComputerSettings)
    (basic : MoreData) :
    (gc.ProcessGPSPreTeam s basic).1.calculated.date_time_local =
      (if basic.time_available then
         if basic.date_time_utc.IsDateCredible then
           basic.date_time_utc.addSeconds s.utc_offset.ToDuration
         else
           ⟨BrokenDate.Invalid,
            basic.date_time_utc.GetTime.addSeconds s.utc_offset.ToDuration⟩
       else BrokenDateTime.Invalid) := by
  cases h1 : gc.calculated.ordered_task_stats.task_finished <;>
    cases h2 : basic.oracle_task_finished_after_more <;>
      cases h3 : basic.oracle_flying <;>
        cases h4 : gc.calculated.flight.flying <;>
          simp [GlideComputer.ProcessGPSPreTeam, GlideComputer.TakeoffLanding,
                GlideComputer.OnTakeoff, GlideComputer.OnLanding,
                GlideComputer.OnFinishTask, GlideComputer.SaveFinish,
                GlideComputer.RestoreFinish, calculateWorkingBand_dtl,
                h1, h2, h3, h4]

set_option maxHeartbeats 2000000 in
/-- The pre-team phase never touches the trace-history throttle clock. -/
theorem preTeam_trace_clock (gc : GlideComputer) (s : ComputerSettings)
    (basic : MoreData) :
    (gc.ProcessGPSPreTeam s basic).1.trace_history_time =
      gc.trace_history_time := by
  cases h1 : gc.calculated.ordered_task_stats.task_finished <;>
    cases h2 : basic.oracle_task_finished_after_more <;>
      cases h3 : basic.oracle_flying <;>
        cases h4 : gc.calculated.flight.flying <;>
          simp [GlideComputer.ProcessGPSPreTeam, GlideComputer.TakeoffLanding,
                GlideComputer.OnTakeoff, GlideComputer.OnLanding,
                GlideComputer.OnFinishTask, GlideComputer.SaveFinish,
                GlideComputer.RestoreFinish, h1, h2, h3, h4]

/-- The trace-history events of the post-team phase, given a recorded
previous sample: append exactly when at least half a second has elapsed,
clear exactly on a backward time jump. -/
theorem post_trace (gc : GlideComputer) (s : ComputerSettings)
    (basic : MoreData) (t : ℚ)
    (hl : gc.trace_history_time.last_time = some t)
    (hta : basic.time_available = true) :
    ((Event.traceAppend ∈ (gc.ProcessGPSPostTeam s basic).2) ↔
       (1 / 2 ≤ basic.time - t)) ∧
    ((Event.traceClear ∈ (gc.ProcessGPSPostTeam s basic).2) ↔
       (basic.time - t < 0)) := by
  unfold GlideComputer.ProcessGPSPostTeam SampleClock.Update
  dsimp only
  rw [hl, hta]
  have h12 : ((1 : ℚ) / 2) = (2 : ℚ)⁻¹ := one_div 2
  rw [h12]
  by_cases hneg : basic.time - t < 0
  · have hlt : ¬((0 : ℚ) < basic.time - t) := by linarith
    have hmin : ¬((2 : ℚ)⁻¹ ≤ basic.time - t) := by
      intro hc
      rw [← h12] at hc
      linarith
    simp [hneg, hlt, hmin]
  · by_cases hmin : (2 : ℚ)⁻¹ ≤ basic.time - t
    · have hpos : (0 : ℚ) < stdMin (basic.time - t) 30 := by
        have h0 : (0 : ℚ) < (2 : ℚ)⁻¹ := by norm_num
        unfold stdMin
        split <;> linarith
      simp [hneg, hmin, hpos]
    · simp [hneg, hmin]

/-- The fuel-burn step is a no-op under the degenerate-consumption guard. -/
theorem fuelBurn_skip (s : ComputerSettings) (basic : MoreData)
    (c : DerivedInfo)
    (h : s.plane.fuel_consumption < 0 ∨
      fabs s.plane.fuel_consumption ≤ dblEpsilon) :
    CalculateFuelBurnTimeRemain s basic c = c := by
  unfold CalculateFuelBurnTimeRemain
  dsimp only
  rw [if_pos h]

/-- With a consumption rate above machine epsilon, the fuel-burn step
stores the truncated hours-to-seconds estimate and stamps its validity. -/
theorem fuelBurn_set (s : ComputerSettings) (basic : MoreData)
    (c : DerivedInfo) (h : dblEpsilon < s.plane.fuel_consumption) :
    CalculateFuelBurnTimeRemain s basic c =
      { c with
          fuel_burn_time_remain :=
            (ratTrunc (s.plane.fuel_onboard / s.plane.fuel_consumption *
              60 * 60)),
          fuel_burn_time_remain_available := ⟨some basic.clock⟩ } := by
  have heps : (0 : ℚ) < dblEpsilon := by norm_num [dblEpsilon]
  have hpos : 0 < s.plane.fuel_consumption := lt_trans heps h
  have hg : ¬(s.plane.fuel_consumption < 0 ∨
      fabs s.plane.fuel_consumption ≤ dblEpsilon) := by
    push_neg
    refine ⟨le_of_lt hpos, ?_⟩
    unfold fabs
    rw [if_neg (not_lt.mpr (le_of_lt hpos))]
    exact h
  unfold CalculateFuelBurnTimeRemain
  dsimp only
  rw [if_neg hg]
  rfl

/-- The fuel estimate visible after a whole tick, when the guard admits
the computation (the fuel-burn step is the final step of the tick). -/
theorem processGPS_fuel (gc : GlideComputer) (w : World)
    (s : ComputerSettings) (wps : Waypoints) (basic : MoreData)
    (h : dblEpsilon < s.plane.fuel_consumption) :
    (gc.ProcessGPS w s wps basic).1.calculated.fuel_burn_time_remain =
      ratTrunc (s.plane.fuel_onboard / s.plane.fuel_consumption * 60 * 60) ∧
    (gc.ProcessGPS w s wps basic).1.calculated.fuel_burn_time_remain_available =
      ⟨some basic.clock⟩ := by
  rw [processGPS_state]
  unfold GlideComputer.ProcessGPSPostTeam
  dsimp only
  rw [fuelBurn_set s basic _ h]
  exact ⟨rfl, rfl⟩

theorem notmem_team (gc : GlideComputer) (s : ComputerSettings)
    (wps : Waypoints) (basic : MoreData) (w : World) {e : Event}
    (h1 : e ≠ Event.ownTeamCodeUpdate)
    (h2 : ∀ id, e ≠ Event.lookupRef id) :
    e ∉ (gc.CalculateOwnTeamCode s wps basic w).2.2 := by
  intro hm
  rcases ownTeamCode_events gc s wps basic w e hm with h | ⟨id, h⟩
  · exact h1 h
  · exact h2 id h

theorem notmem_mate (gc : GlideComputer) (s : ComputerSettings)
    (wps : Waypoints) (basic : MoreData) {e : Event}
    (h2 : ∀ id, e ≠ Event.lookupRef id) :
    e ∉ (gc.CalculateTeammateBearingRange s wps basic).2 := by
  intro hm
  obtain ⟨id, h⟩ := mate_events gc s wps basic e hm
  exact h2 id h

theorem notmem_post (gc : GlideComputer) (s : ComputerSettings)
    (basic : MoreData) {e : Event}
    (h : e ≠ Event.traceAppend ∧ e ≠ Event.traceClear ∧ e ≠ Event.varioScale ∧
      e ≠ Event.conditionMonitors ∧ e ≠ Event.fuelBurnStep) :
    e ∉ (gc.ProcessGPSPostTeam s basic).2 := by
  intro hm
  rcases post_events gc s basic e hm with h1 | h1 | h1 | h1 | h1 <;> tauto

/-! ### Claims -/

/-- Claim C1, counterexample: on a tick whose finish edge fires (the
ordered task goes from not finished to finished), the finish hook is NOT
invoked before the working-band recomputation and the extended task
computation — the event trace shows OnFinishTask after both. -/
theorem c1_counterexample :
    GlideComputer.Create.calculated.ordered_task_stats.task_finished = false ∧
    (GlideComputer.ProcessGPS GlideComputer.Create World.Fresh baseSettings
        emptyWaypoints finishTick).1.calculated.ordered_task_stats.task_finished =
      true ∧
    Event.onFinishTask ∈
      (GlideComputer.ProcessGPS GlideComputer.Create World.Fresh baseSettings
        emptyWaypoints finishTick).2.2 ∧
    evBefore Event.onFinishTask Event.calculateWorkingBand
      (GlideComputer.ProcessGPS GlideComputer.Create World.Fresh baseSettings
        emptyWaypoints finishTick).2.2 = false ∧
    evBefore Event.onFinishTask Event.processMoreTask
      (GlideComputer.ProcessGPS GlideComputer.Create World.Fresh baseSettings
        emptyWaypoints finishTick).2.2 = false := by
  with_unfolding_all decide

/-- Claim C1, amended: on every tick whose ordered-task finish edge fires,
the finish hook OnFinishTask is invoked — but after the working-band
recomputation and after ProcessMoreTask (the edge test reads the flag
after ProcessMoreTask), and before the subsequent steps, in particular
before FlightTimes and the takeoff/landing evaluation. -/
theorem c1_finish_hook_fires_after_more_task
    (gc : GlideComputer) (w : World) (s : ComputerSettings) (wps : Waypoints)
    (basic : MoreData)
    (h1 : gc.calculated.ordered_task_stats.task_finished = false)
    (h2 : basic.oracle_task_finished_after_more = true) :
    Event.onFinishTask ∈ (gc.ProcessGPS w s wps basic).2.2 ∧
    evBefore Event.processBasicTask Event.onFinishTask
      (gc.ProcessGPS w s wps basic).2.2 = true ∧
    evBefore Event.calculateWorkingBand Event.onFinishTask
      (gc.ProcessGPS w s wps basic).2.2 = true ∧
    evBefore Event.processMoreTask Event.onFinishTask
      (gc.ProcessGPS w s wps basic).2.2 = true ∧
    evBefore Event.onFinishTask Event.flightTimes
      (gc.ProcessGPS w s wps basic).2.2 = true := by
  rw [processGPS_events, preTeam_events_eq, h1, h2]
  simp [evBefore]

/-- Witness for the amended C1 at a concrete finish-edge tick. -/
theorem c1_witness :
    GlideComputer.Create.calculated.ordered_task_stats.task_finished = false ∧
    finishTick.oracle_task_finished_after_more = true ∧
    (Event.onFinishTask ∈
      (GlideComputer.ProcessGPS GlideComputer.Create World.Fresh baseSettings
        emptyWaypoints finishTick).2.2 ∧
     evBefore Event.processBasicTask Event.onFinishTask
       (GlideComputer.ProcessGPS GlideComputer.Create World.Fresh baseSettings
         emptyWaypoints finishTick).2.2 = true ∧
     evBefore Event.calculateWorkingBand Event.onFinishTask
       (GlideComputer.ProcessGPS GlideComputer.Create World.Fresh baseSettings
         emptyWaypoints finishTick).2.2 = true ∧
     evBefore Event.processMoreTask Event.onFinishTask
       (GlideComputer.ProcessGPS GlideComputer.Create World.Fresh baseSettings
         emptyWaypoints finishTick).2.2 = true ∧
     evBefore Event.onFinishTask Event.flightTimes
       (GlideComputer.ProcessGPS GlideComputer.Create World.Fresh baseSettings
         emptyWaypoints finishTick).2.2 = true) :=
  ⟨rfl, rfl,
   c1_finish_hook_fires_after_more_task GlideComputer.Create World.Fresh
     baseSettings emptyWaypoints finishTick rfl rfl⟩

set_option maxHeartbeats 2000000 in
/-- Claim C2: each tick compares this tick's flying flag with the previous
tick's flag; the takeoff hook fires exactly once on a grounded-to-flying
edge (resetting per-flight statistics with full = false, never a full
reset, and snapshotting finish data), the landing hook fires exactly once
on a flying-to-grounded edge and restores the finish snapshot exactly when
the ordered task was already finished, and no hook fires without an edge;
on the flying sequence [false, false, true, true, false] exactly one
takeoff and one landing fire, at the two edges. -/
theorem c2_takeoff_landing_hooks :
    (∀ (gc : GlideComputer) (w : World) (s : ComputerSettings)
        (wps : Waypoints) (basic : MoreData),
      ((gc.ProcessGPS w s wps basic).2.2.count Event.onTakeoff =
        if basic.oracle_flying && !gc.calculated.flight.flying then 1
        else 0) ∧
      ((gc.ProcessGPS w s wps basic).2.2.count Event.onLanding =
        if !basic.oracle_flying && gc.calculated.flight.flying then 1
        else 0) ∧
      ((gc.ProcessGPS w s wps basic).2.2.count (Event.resetFlightStats false) =
        if basic.oracle_flying && !gc.calculated.flight.flying then 1
        else 0) ∧
      ((gc.ProcessGPS w s wps basic).2.2.count (Event.resetFlightStats true) =
        0) ∧
      ((gc.ProcessGPS w s wps basic).2.2.count Event.restoreFinish =
        if (!basic.oracle_flying && gc.calculated.flight.flying) &&
            basic.oracle_task_finished_after_more then 1
        else 0) ∧
      ((gc.ProcessGPS w s wps basic).2.2.count Event.saveFinish =
        (if !gc.calculated.ordered_task_stats.task_finished &&
            basic.oracle_task_finished_after_more then 1 else 0) +
        (if basic.oracle_flying && !gc.calculated.flight.flying then 1
         else 0))) ∧
    ((runTicks baseSettings emptyWaypoints GlideComputer.Create World.Fresh
        c2Ticks).2.2.map (fun l => l.count Event.onTakeoff) =
      [0, 0, 1, 0, 0]) ∧
    ((runTicks baseSettings emptyWaypoints GlideComputer.Create World.Fresh
        c2Ticks).2.2.map (fun l => l.count Event.onLanding) =
      [0, 0, 0, 0, 1]) := by
  refine ⟨?_, by with_unfolding_all decide, by with_unfolding_all decide⟩
  intro gc w s wps basic
  have hz : ∀ e : Event, e ≠ Event.ownTeamCodeUpdate →
      (∀ id, e ≠ Event.lookupRef id) →
      e ≠ Event.traceAppend → e ≠ Event.traceClear → e ≠ Event.varioScale →
      e ≠ Event.conditionMonitors → e ≠ Event.fuelBurnStep →
      (gc.ProcessGPS w s wps basic).2.2.count e =
        ((gc.ProcessGPSPreTeam s basic).2).count e := by
    intro e he1 he2 he3 he4 he5 he6 he7
    rw [processGPS_events, List.count_append, List.count_append,
      List.count_append]
    rw [List.count_eq_zero.mpr (notmem_team _ s wps basic w he1 he2),
      List.count_eq_zero.mpr (notmem_mate _ s wps basic he2),
      List.count_eq_zero.mpr (notmem_post _ s basic ⟨he3, he4, he5, he6, he7⟩)]
    omega
  have hto := hz Event.onTakeoff (by intro h; cases h)
    (fun id => by intro h; cases h) (by intro h; cases h)
    (by intro h; cases h) (by intro h; cases h) (by intro h; cases h)
    (by intro h; cases h)
  have hla := hz Event.onLanding (by intro h; cases h)
    (fun id => by intro h; cases h) (by intro h; cases h)
    (by intro h; cases h) (by intro h; cases h) (by intro h; cases h)
    (by intro h; cases h)
  have hrf := hz (Event.resetFlightStats false) (by intro h; cases h)
    (fun id => by intro h; cases h) (by intro h; cases h)
    (by intro h; cases h) (by intro h; cases h) (by intro h; cases h)
    (by intro h; cases h)
  have hrt := hz (Event.resetFlightStats true) (by intro h; cases h)
    (fun id => by intro h; cases h) (by intro h; cases h)
    (by intro h; cases h) (by intro h; cases h) (by intro h; cases h)
    (by intro h; cases h)
  have hre := hz Event.restoreFinish (by intro h; cases h)
    (fun id => by intro h; cases h) (by intro h; cases h)
    (by intro h; cases h) (by intro h; cases h) (by intro h; cases h)
    (by intro h; cases h)
  have hsv := hz Event.saveFinish (by intro h; cases h)
    (fun id => by intro h; cases h) (by intro h; cases h)
    (by intro h; cases h) (by intro h; cases h) (by intro h; cases h)
    (by intro h; cases h)
  rw [hto, hla, hrf, hrt, hre, hsv] at *
  refine ⟨?_, ?_, ?_, ?_, ?_, ?_⟩ <;>
    rw [preTeam_events_eq] <;>
      cases h1 : gc.calculated.ordered_task_stats.task_finished <;>
        cases h2 : basic.oracle_task_finished_after_more <;>
          cases h3 : basic.oracle_flying <;>
            cases h4 : gc.calculated.flight.flying <;>
              simp [h1, h2, h3, h4, List.count_append, List.count_cons]

theorem wb_of_common_eq {d d' : DerivedInfo}
    (h : d.common_stats = d'.common_stats) (h2 : WorkingBandInv d') :
    WorkingBandInv d := by
  unfold WorkingBandInv at *
  rw [h]
  exact h2

theorem wb_of_fields {d d' : DerivedInfo}
    (hmin : d.common_stats.height_min_working =
      d'.common_stats.height_min_working)
    (hmax : d.common_stats.height_max_working =
      d'.common_stats.height_max_working)
    (h2 : WorkingBandInv d') : WorkingBandInv d := by
  unfold WorkingBandInv at *
  rw [hmin, hmax]
  exact h2

/-- One tick preserves the working-band invariant on the derived state
(re-established by CalculateWorkingBand, possibly re-installed from the
snapshot on landing) and on the finish snapshot. -/
theorem processGPS_inv (gc : GlideComputer) (w : World)
    (s : ComputerSettings) (wps : Waypoints) (basic : MoreData)
    (h : WorkingBandInv gc.finish_derived_info) :
    WorkingBandInv (gc.ProcessGPS w s wps basic).1.calculated ∧
    WorkingBandInv (gc.ProcessGPS w s wps basic).1.finish_derived_info := by
  obtain ⟨hA1, hA2⟩ := preTeam_inv gc s basic h
  obtain ⟨o1, o2, o3, o4, o5, o6, o7, o8, o9⟩ :=
    ownTeamCode_state (gc.ProcessGPSPreTeam s basic).1 s wps basic w
  obtain ⟨m1, m2, m3, m4, m5, m6, m7, m8, m9⟩ :=
    mate_state ((gc.ProcessGPSPreTeam s basic).1.CalculateOwnTeamCode s wps
      basic w).1 s wps basic
  obtain ⟨p1, p2, p3, p4, p5, p6, p7⟩ :=
    post_state (((gc.ProcessGPSPreTeam s basic).1.CalculateOwnTeamCode s wps
      basic w).1.CalculateTeammateBearingRange s wps basic).1 s basic
  rw [processGPS_state]
  constructor
  · exact wb_of_fields p2 p3
      (wb_of_common_eq m2 (wb_of_common_eq o2 hA1))
  · rw [p7, m8, o8]
    exact hA2

/-- Whole runs preserve the invariant on both the derived state and the
snapshot. -/
theorem runTicks_inv (s : ComputerSettings) (wps : Waypoints) :
    ∀ (bs : List MoreData) (gc : GlideComputer) (w : World),
      WorkingBandInv gc.calculated →
      WorkingBandInv gc.finish_derived_info →
      WorkingBandInv (runTicks s wps gc w bs).1.calculated ∧
      WorkingBandInv (runTicks s wps gc w bs).1.finish_derived_info
  | [], _, _, h1, h2 => ⟨h1, h2⟩
  | b :: bs, gc, w, _, h2 => by
    rw [runTicks]
    obtain ⟨h1n, h2n⟩ := processGPS_inv gc w s wps b h2
    exact runTicks_inv s wps bs (gc.ProcessGPS w s wps b).1
      (gc.ProcessGPS w s wps b).2.1 h1n h2n

/-- Claim C3: after every completed tick the working band satisfies
height_max_working at least height_min_working, for every input sample
(with or without a valid terrain base or navigation altitude): it holds in
the freshly created state, one tick preserves it (the finish snapshot is
the inductive side condition, since a landing may install the snapshot),
and it holds after every tick of every run from the created state. -/
theorem c3_working_band_invariant :
    WorkingBandInv GlideComputer.Create.calculated ∧
    WorkingBandInv GlideComputer.Create.finish_derived_info ∧
    (∀ (gc : GlideComputer) (w : World) (s : ComputerSettings)
      (wps : Waypoints) (basic : MoreData),
      WorkingBandInv gc.finish_derived_info →
      WorkingBandInv (gc.ProcessGPS w s wps basic).1.calculated ∧
      WorkingBandInv (gc.ProcessGPS w s wps basic).1.finish_derived_info) ∧
    (∀ (s : ComputerSettings) (wps : Waypoints) (bs : List MoreData),
      WorkingBandInv (runTicks s wps GlideComputer.Create World.Fresh
        bs).1.calculated) := by
  refine ⟨by with_unfolding_all decide, by with_unfolding_all decide,
    processGPS_inv, ?_⟩
  intro s wps bs
  exact (runTicks_inv s wps bs GlideComputer.Create World.Fresh
    (by with_unfolding_all decide) (by with_unfolding_all decide)).1

/-- Witness for C3 at a concrete tick from the created state. -/
theorem c3_witness :
    WorkingBandInv GlideComputer.Create.finish_derived_info ∧
    (WorkingBandInv (GlideComputer.ProcessGPS GlideComputer.Create World.Fresh
       baseSettings emptyWaypoints baseTick).1.calculated ∧
     WorkingBandInv (GlideComputer.ProcessGPS GlideComputer.Create World.Fresh
       baseSettings emptyWaypoints baseTick).1.finish_derived_info) :=
  ⟨by with_unfolding_all decide,
   c3_working_band_invariant.2.2.1 GlideComputer.Create World.Fresh
     baseSettings emptyWaypoints baseTick (by with_unfolding_all decide)⟩

/-- A trace event can only come from the post-team phase of the tick. -/
theorem processGPS_trace_mem (gc : GlideComputer) (w : World)
    (s : ComputerSettings) (wps : Waypoints) (basic : MoreData) (e : Event)
    (he : e = Event.traceAppend ∨ e = Event.traceClear) :
    (e ∈ (gc.ProcessGPS w s wps basic).2.2 ↔
     e ∈ ((((gc.ProcessGPSPreTeam s basic).1.CalculateOwnTeamCode s wps basic
         w).1.CalculateTeammateBearingRange s wps
       basic).1.ProcessGPSPostTeam s basic).2) := by
  have hpre : e ∉ (gc.ProcessGPSPreTeam s basic).2 := by
    intro hm
    have hx := preTeam_mem gc s basic _ hm
    rcases he with rfl | rfl <;> simp at hx
  have hteam : e ∉ ((gc.ProcessGPSPreTeam s basic).1.CalculateOwnTeamCode s
      wps basic w).2.2 := by
    refine notmem_team _ s wps basic w ?_ ?_ <;>
      rcases he with rfl | rfl
    · intro hx; cases hx
    · intro hx; cases hx
    · intro id hx; cases hx
    · intro id hx; cases hx
  have hmate : e ∉ (((gc.ProcessGPSPreTeam s basic).1.CalculateOwnTeamCode s
      wps basic w).1.CalculateTeammateBearingRange s wps basic).2 := by
    refine notmem_mate _ s wps basic ?_
    rcases he with rfl | rfl
    · intro id hx; cases hx
    · intro id hx; cases hx
  rw [processGPS_events]
  simp only [List.mem_append]
  constructor
  · rintro (((hx | hx) | hx) | hx)
    · exact absurd hx hpre
    · exact absurd hx hteam
    · exact absurd hx hmate
    · exact hx
  · intro hx
    exact Or.inr hx

def c4TickA : MoreData := { baseTick with time := 100, clock := 100 }

def c4TickB : MoreData := { baseTick with time := 95, clock := 95 }

def c4TickC : MoreData :=
  { baseTick with time := 503 / 5, clock := 503 / 5 }

/-- The state after feeding the sample with time T = 100. -/
def c4StateA : GlideComputer :=
  (GlideComputer.ProcessGPS GlideComputer.Create World.Fresh baseSettings
    emptyWaypoints c4TickA).1

set_option maxHeartbeats 1000000 in
/-- Claim C4: whenever a previous sample is recorded, a tick with time
available appends to the trace history exactly when at least 500 ms have
elapsed since the recorded sample and clears it exactly on a backward time
jump; feeding time T then T - 5 s clears the history (no append), and
feeding T then T + 0.6 s appends exactly once. -/
theorem c4_trace_history_throttle :
    (∀ (gc : GlideComputer) (w : World) (s : ComputerSettings)
       (wps : Waypoints) (basic : MoreData) (t : ℚ),
      gc.trace_history_time.last_time = some t →
      basic.time_available = true →
      ((Event.traceAppend ∈ (gc.ProcessGPS w s wps basic).2.2 ↔
         1 / 2 ≤ basic.time - t) ∧
       (Event.traceClear ∈ (gc.ProcessGPS w s wps basic).2.2 ↔
         basic.time - t < 0))) ∧
    ((runTicks baseSettings emptyWaypoints GlideComputer.Create World.Fresh
        [c4TickA, c4TickB]).1.calculated.trace_history = []) ∧
    ((runTicks baseSettings emptyWaypoints GlideComputer.Create World.Fresh
        [c4TickA, c4TickB]).2.2.map (fun l => l.count Event.traceClear) =
      [0, 1]) ∧
    ((runTicks baseSettings emptyWaypoints GlideComputer.Create World.Fresh
        [c4TickA, c4TickB]).2.2.map (fun l => l.count Event.traceAppend) =
      [0, 0]) ∧
    ((runTicks baseSettings emptyWaypoints GlideComputer.Create World.Fresh
        [c4TickA, c4TickC]).1.calculated.trace_history = [503 / 5]) ∧
    ((runTicks baseSettings emptyWaypoints GlideComputer.Create World.Fresh
        [c4TickA, c4TickC]).2.2.map (fun l => l.count Event.traceAppend) =
      [0, 1]) := by
  refine ⟨?_, by with_unfolding_all decide, by with_unfolding_all decide,
    by with_unfolding_all decide, by with_unfolding_all decide,
    by with_unfolding_all decide⟩
  intro gc w s wps basic t hl hta
  have hC : (((gc.ProcessGPSPreTeam s basic).1.CalculateOwnTeamCode s wps
      basic w).1.CalculateTeammateBearingRange s wps
      basic).1.trace_history_time = gc.trace_history_time := by
    rw [(mate_state _ s wps basic).2.2.2.2.2.2.2.2,
      (ownTeamCode_state _ s wps basic w).2.2.2.2.2.2.2.2,
      preTeam_trace_clock]
  have hl2 : (((gc.ProcessGPSPreTeam s basic).1.CalculateOwnTeamCode s wps
      basic w).1.CalculateTeammateBearingRange s wps
      basic).1.trace_history_time.last_time = some t := by
    rw [hC]
    exact hl
  have hpost := post_trace _ s basic t hl2 hta
  constructor
  · rw [processGPS_trace_mem gc w s wps basic _ (Or.inl rfl)]
    exact hpost.1
  · rw [processGPS_trace_mem gc w s wps basic _ (Or.inr rfl)]
    exact hpost.2

/-- Witness for C4: the tick T - 5 s after T clears, instantiating the
general throttle statement at a recorded previous sample. -/
theorem c4_witness :
    c4StateA.trace_history_time.last_time = some 100 ∧
    c4TickB.time_available = true ∧
    ((Event.traceAppend ∈ (GlideComputer.ProcessGPS c4StateA World.Fresh
        baseSettings emptyWaypoints c4TickB).2.2 ↔
      1 / 2 ≤ c4TickB.time - 100) ∧
     (Event.traceClear ∈ (GlideComputer.ProcessGPS c4StateA World.Fresh
        baseSettings emptyWaypoints c4TickB).2.2 ↔
      c4TickB.time - 100 < 0)) :=
  ⟨by with_unfolding_all decide, rfl,
   c4_trace_history_throttle.1 c4StateA World.Fresh baseSettings
     emptyWaypoints c4TickB 100 (by with_unfolding_all decide) rfl⟩

def c5Settings : ComputerSettings := { baseSettings with utc_offset := ⟨7200⟩ }

/-- A sample whose raw UTC date is implausible but whose time of day is
valid (08:30:00, i.e. 30600 seconds). -/
def c5Tick : MoreData :=
  { baseTick with date_time_utc := ⟨⟨false, 0⟩, ⟨true, 30600⟩⟩ }

/-- Claim C5: the local date-time after a tick is fully invalid when time
is unavailable, is the whole UTC date-time shifted by the configured
offset when the raw date is plausible, and has an invalid date with only
the time of day shifted when the raw date is implausible; concretely, an
implausible date with time of day 08:30 and a +2 h offset yields an
invalid date and 10:30. -/
theorem c5_local_date_time :
    (∀ (gc : GlideComputer) (w : World) (s : ComputerSettings)
       (wps : Waypoints) (basic : MoreData),
      (gc.ProcessGPS w s wps basic).1.calculated.date_time_local =
        (if basic.time_available then
           if basic.date_time_utc.IsDateCredible then
             basic.date_time_utc.addSeconds s.utc_offset.ToDuration
           else
             ⟨BrokenDate.Invalid,
              basic.date_time_utc.GetTime.addSeconds s.utc_offset.ToDuration⟩
         else BrokenDateTime.Invalid)) ∧
    ((GlideComputer.ProcessGPS GlideComputer.Create World.Fresh c5Settings
        emptyWaypoints c5Tick).1.calculated.date_time_local =
      ⟨BrokenDate.Invalid, ⟨true, 37800⟩⟩) := by
  have hgen : ∀ (gc : GlideComputer) (w : World) (s : ComputerSettings)
      (wps : Waypoints) (basic : MoreData),
      (gc.ProcessGPS w s wps basic).1.calculated.date_time_local =
        (if basic.time_available then
           if basic.date_time_utc.IsDateCredible then
             basic.date_time_utc.addSeconds s.utc_offset.ToDuration
           else
             ⟨BrokenDate.Invalid,
              basic.date_time_utc.GetTime.addSeconds s.utc_offset.ToDuration⟩
         else BrokenDateTime.Invalid) := by
    intro gc w s wps basic
    rw [processGPS_state, (post_state _ s basic).1,
      (mate_state _ s wps basic).1, (ownTeamCode_state _ s wps basic w).1,
      preTeam_dtl]
  refine ⟨hgen, ?_⟩
  rw [hgen]
  decide

def c6SettingsGood : ComputerSettings :=
  { baseSettings with plane := ⟨10, 5⟩ }

def c6SettingsZero : ComputerSettings :=
  { baseSettings with plane := ⟨10, 0⟩ }

def c6SettingsNeg : ComputerSettings :=
  { baseSettings with plane := ⟨10, -1⟩ }

/-- Claim C6: the fuel-burn computation is skipped — value and validity
both untouched — whenever the consumption rate is negative or zero within
machine epsilon, and otherwise stores the finite integer estimate
onboard/consumption in seconds (the canonical unit) and refreshes the
validity with the current clock; the step runs once per tick as the final
pipeline step, and consumption 5 with 10 onboard gives 7200 s = 2 h. -/
theorem c6_fuel_burn_guard :
    (∀ (s : ComputerSettings) (basic : MoreData) (c : DerivedInfo),
      (s.plane.fuel_consumption < 0 ∨
        fabs s.plane.fuel_consumption ≤ dblEpsilon) →
      CalculateFuelBurnTimeRemain s basic c = c) ∧
    (∀ (s : ComputerSettings) (basic : MoreData) (c : DerivedInfo),
      dblEpsilon < s.plane.fuel_consumption →
      CalculateFuelBurnTimeRemain s basic c =
        { c with
            fuel_burn_time_remain :=
              (ratTrunc (s.plane.fuel_onboard / s.plane.fuel_consumption *
                60 * 60)),
            fuel_burn_time_remain_available := ⟨some basic.clock⟩ }) ∧
    (∀ (gc : GlideComputer) (w : World) (s : ComputerSettings)
       (wps : Waypoints) (basic : MoreData),
      dblEpsilon < s.plane.fuel_consumption →
      (gc.ProcessGPS w s wps basic).1.calculated.fuel_burn_time_remain =
        ratTrunc (s.plane.fuel_onboard / s.plane.fuel_consumption *
          60 * 60) ∧
      (gc.ProcessGPS w s wps
          basic).1.calculated.fuel_burn_time_remain_available =
        ⟨some basic.clock⟩) ∧
    ((CalculateFuelBurnTimeRemain c6SettingsGood baseTick
        DerivedInfo.Clear).fuel_burn_time_remain = 7200) ∧
    ((7200 : Int) = 2 * 60 * 60) ∧
    (CalculateFuelBurnTimeRemain c6SettingsZero baseTick DerivedInfo.Clear =
      DerivedInfo.Clear) ∧
    (CalculateFuelBurnTimeRemain c6SettingsNeg baseTick DerivedInfo.Clear =
      DerivedInfo.Clear) := by
  exact ⟨fuelBurn_skip, fuelBurn_set, processGPS_fuel,
    by with_unfolding_all decide, by norm_num,
    by with_unfolding_all decide, by with_unfolding_all decide⟩

/-- Witness for C6: the guard applied at consumption 0 and the estimate at
consumption 5 with 10 onboard. -/
theorem c6_witness :
    (c6SettingsZero.plane.fuel_consumption < 0 ∨
      fabs c6SettingsZero.plane.fuel_consumption ≤ dblEpsilon) ∧
    dblEpsilon < c6SettingsGood.plane.fuel_consumption ∧
    CalculateFuelBurnTimeRemain c6SettingsZero baseTick DerivedInfo.Clear =
      DerivedInfo.Clear ∧
    CalculateFuelBurnTimeRemain c6SettingsGood baseTick DerivedInfo.Clear =
      { DerivedInfo.Clear with
          fuel_burn_time_remain :=
            (ratTrunc (c6SettingsGood.plane.fuel_onboard /
              c6SettingsGood.plane.fuel_consumption * 60 * 60)),
          fuel_burn_time_remain_available := ⟨some baseTick.clock⟩ } :=
  ⟨Or.inr (by with_unfolding_all decide), by with_unfolding_all decide,
   c6_fuel_burn_guard.1 c6SettingsZero baseTick DerivedInfo.Clear
     (Or.inr (by with_unfolding_all decide)),
   c6_fuel_burn_guard.2.1 c6SettingsGood baseTick DerivedInfo.Clear
     (by with_unfolding_all decide)⟩

/-- With an unchanged non-negative configured id, the reference resolution
returns the cached result — including a cached failure — and performs no
lookup. -/
theorem determine_cached (gc : GlideComputer) (s : ComputerSettings)
    (wps : Waypoints)
    (h1 : 0 ≤ s.team_code.team_code_reference_waypoint)
    (h2 : gc.team_code_ref_id = s.team_code.team_code_reference_waypoint) :
    gc.DetermineTeamCodeRefLocation s wps = (gc.team_code_ref_found, gc, []) := by
  unfold GlideComputer.DetermineTeamCodeRefLocation
  dsimp only
  rw [if_neg (not_lt.mpr h1)]
  rw [if_pos (by simp [h2])]

/-- When the configured id differs from the cached one, the lookup is
performed; if it resolves, the location is cached and the resolution
succeeds. -/
theorem determine_changed (gc : GlideComputer) (s : ComputerSettings)
    (wps : Waypoints) (wp : Waypoint)
    (h1 : 0 ≤ s.team_code.team_code_reference_waypoint)
    (hne : gc.team_code_ref_id ≠ s.team_code.team_code_reference_waypoint)
    (hlk : wps.LookupId s.team_code.team_code_reference_waypoint = some wp) :
    gc.DetermineTeamCodeRefLocation s wps =
      (true,
       { gc with
           team_code_ref_id := s.team_code.team_code_reference_waypoint,
           team_code_ref_found := true,
           team_code_ref_location := wp.location },
       [Event.lookupRef s.team_code.team_code_reference_waypoint]) := by
  unfold GlideComputer.DetermineTeamCodeRefLocation
  dsimp only
  rw [if_neg (not_lt.mpr h1)]
  rw [if_neg (by simp; exact fun hx => hne hx.symm)]
  rw [hlk]

def c7Tick2 : MoreData := { baseTick with clock := 20 }

/-- Claim C7, counterexample: after a failed lookup of the configured id,
the next tick with the same id performs no lookup at all — even when the
waypoint store meanwhile contains the id and twenty seconds have passed —
and the team computations stay skipped, so they do not resume when the id
would resolve. -/
theorem c7_counterexample :
    ((GlideComputer.ProcessGPS GlideComputer.Create World.Fresh teamSettings
        emptyWaypoints baseTick).2.2.count (Event.lookupRef 1) = 1) ∧
    c7StateAfterFailedLookup.team_code_ref_id = 1 ∧
    c7StateAfterFailedLookup.team_code_ref_found = false ∧
    ((GlideComputer.ProcessGPS c7StateAfterFailedLookup World.Fresh
        teamSettings teamWaypoints c7Tick2).2.2.count (Event.lookupRef 1) =
      0) ∧
    Event.ownTeamCodeUpdate ∉
      (GlideComputer.ProcessGPS c7StateAfterFailedLookup World.Fresh
        teamSettings teamWaypoints c7Tick2).2.2 := by
  with_unfolding_all decide

/-- Claim C7, amended: when the configured reference id does not resolve,
team computations are skipped for that tick, but the failed lookup is
cached with the id: later ticks with the same id skip the team
computations without querying the waypoint store again; the lookup is only
re-performed when the configured id changes, and team computations resume
when the changed id resolves. -/
theorem c7_failed_lookup_cached
    (gc : GlideComputer) (s : ComputerSettings) (wps : Waypoints)
    (h1 : 0 ≤ s.team_code.team_code_reference_waypoint) :
    (gc.team_code_ref_id = s.team_code.team_code_reference_waypoint →
      gc.DetermineTeamCodeRefLocation s wps =
        (gc.team_code_ref_found, gc, [])) ∧
    (∀ wp : Waypoint,
      gc.team_code_ref_id ≠ s.team_code.team_code_reference_waypoint →
      wps.LookupId s.team_code.team_code_reference_waypoint = some wp →
      gc.DetermineTeamCodeRefLocation s wps =
        (true,
         { gc with
             team_code_ref_id := s.team_code.team_code_reference_waypoint,
             team_code_ref_found := true,
             team_code_ref_location := wp.location },
         [Event.lookupRef s.team_code.team_code_reference_waypoint])) :=
  ⟨fun h2 => determine_cached gc s wps h1 h2,
   fun wp hne hlk => determine_changed gc s wps wp h1 hne hlk⟩

/-- Witness for the amended C7: the cached failure is returned without a
lookup on the second tick, and a changed id resolves. -/
theorem c7_witness :
    ((0 : Int) ≤ teamSettings.team_code.team_code_reference_waypoint) ∧
    c7StateAfterFailedLookup.team_code_ref_id =
      teamSettings.team_code.team_code_reference_waypoint ∧
    (c7StateAfterFailedLookup.DetermineTeamCodeRefLocation teamSettings
        teamWaypoints =
      (c7StateAfterFailedLookup.team_code_ref_found,
       c7StateAfterFailedLookup, [])) ∧
    (GlideComputer.Create.DetermineTeamCodeRefLocation teamSettings
        teamWaypoints =
      (true,
       { GlideComputer.Create with
           team_code_ref_id :=
             teamSettings.team_code.team_code_reference_waypoint,
           team_code_ref_found := true,
           team_code_ref_location := (⟨1, ⟨3, 4⟩⟩ : Waypoint).location },
       [Event.lookupRef
          teamSettings.team_code.team_code_reference_waypoint])) :=
  ⟨by decide, by with_unfolding_all decide,
   (c7_failed_lookup_cached c7StateAfterFailedLookup teamSettings
       teamWaypoints (by decide)).1 (by with_unfolding_all decide),
   (c7_failed_lookup_cached GlideComputer.Create teamSettings teamWaypoints
       (by decide)).2 ⟨1, ⟨3, 4⟩⟩ (by decide) (by decide)⟩

/-- Claim C8: the own-team-code recomputation is throttled to once per ten
seconds regardless of tick rate: in every run, consecutive recompute
clock stamps are at least ten seconds apart, and for thirty samples
spaced one second apart with a resolved reference the recompute runs
exactly at clocks 0, 10 and 20 — three times, never on every tick. -/
theorem c8_own_team_code_throttle :
    (∀ (s : ComputerSettings) (wps : Waypoints) (gc : GlideComputer)
       (w : World) (bs : List MoreData),
      List.Chain' (fun a b => a + 10 ≤ b) (fireTimes s wps gc w bs)) ∧
    (fireTimes teamSettings teamWaypoints GlideComputer.Create World.Fresh
      c8Ticks = [0, 10, 20]) ∧
    ((fireTimes teamSettings teamWaypoints GlideComputer.Create World.Fresh
      c8Ticks).length ≤ 3) := by
  refine ⟨?_, by with_unfolding_all decide, by with_unfolding_all decide⟩
  intro s wps gc w bs
  exact (fireTimes_chain_from s wps bs gc w).1

def c9TickB : MoreData := { baseTick with clock := 5 }

/-- The shared throttle clock after one instance processed one sample. -/
def c9WorldAfterA : World :=
  (GlideComputer.ProcessGPS GlideComputer.Create World.Fresh teamSettings
    teamWaypoints baseTick).2.1

/-- Claim C9, counterexample: the last-team-code-update clock is the
process-wide static of GlideComputer.cpp line 12, not an instance field: a
tick processed by one instance changes the shared clock, and a second,
fresh instance processing a sample five seconds later is then suppressed,
while without the first instance's tick it would recompute. -/
theorem c9_counterexample :
    Event.ownTeamCodeUpdate ∈
      (GlideComputer.ProcessGPS GlideComputer.Create World.Fresh teamSettings
        teamWaypoints baseTick).2.2 ∧
    c9WorldAfterA ≠ World.Fresh ∧
    Event.ownTeamCodeUpdate ∈
      (GlideComputer.ProcessGPS GlideComputer.Create World.Fresh teamSettings
        teamWaypoints c9TickB).2.2 ∧
    Event.ownTeamCodeUpdate ∉
      (GlideComputer.ProcessGPS GlideComputer.Create c9WorldAfterA
        teamSettings teamWaypoints c9TickB).2.2 := by
  with_unfolding_all decide

/-- Claim C9, amended: the throttle clock is process-wide shared state:
whenever one instance's tick fires the own-team-code recompute, any
instance's tick within the next ten seconds of clock is suppressed. -/
theorem c9_shared_throttle_suppression
    (gcA gcB : GlideComputer) (w : World) (s : ComputerSettings)
    (wps : Waypoints) (bA bB : MoreData)
    (hfire : Event.ownTeamCodeUpdate ∈ (gcA.ProcessGPS w s wps bA).2.2)
    (hgap : bB.clock - bA.clock < 10) :
    Event.ownTeamCodeUpdate ∉
      (gcB.ProcessGPS (gcA.ProcessGPS w s wps bA).2.1 s wps bB).2.2 := by
  have hA := (ownTeamCode_throttle (gcA.ProcessGPSPreTeam s bA).1 s wps bA
    w).1 ((processGPS_ownUpdate_mem gcA w s wps bA).1 hfire)
  have hstamp : (gcA.ProcessGPS w s wps
      bA).2.1.last_team_code_update.last_update = some bA.clock := by
    rw [processGPS_world]
    exact hA.1
  intro hmem
  have hB := (ownTeamCode_throttle (gcB.ProcessGPSPreTeam s bB).1 s wps bB
    (gcA.ProcessGPS w s wps bA).2.1).1
    ((processGPS_ownUpdate_mem gcB _ s wps bB).1 hmem)
  rcases hB.2 with hnone | ⟨t, ht, hle⟩
  · rw [hstamp] at hnone
    exact Option.noConfusion hnone
  · rw [hstamp] at ht
    injection ht with ht
    subst ht
    linarith

/-- Witness for the amended C9: instance A fires at clock 0, instance B is
suppressed at clock 5. -/
theorem c9_witness :
    Event.ownTeamCodeUpdate ∈
      (GlideComputer.ProcessGPS GlideComputer.Create World.Fresh teamSettings
        teamWaypoints baseTick).2.2 ∧
    c9TickB.clock - baseTick.clock < 10 ∧
    Event.ownTeamCodeUpdate ∉
      (GlideComputer.ProcessGPS GlideComputer.Create
        (GlideComputer.ProcessGPS GlideComputer.Create World.Fresh
          teamSettings teamWaypoints baseTick).2.1
        teamSettings teamWaypoints c9TickB).2.2 :=
  ⟨by with_unfolding_all decide, by with_unfolding_all decide,
   c9_shared_throttle_suppression GlideComputer.Create GlideComputer.Create
     World.Fresh teamSettings teamWaypoints baseTick c9TickB
     (by with_unfolding_all decide) (by with_unfolding_all decide)⟩

/-- When the configured contact is absent or lacks a location, the FLARM
teammate computation only clears the currency flag. -/
theorem computeFlarmTeam_absent (loc ref : GeoPoint) (tl : TrafficList)
    (id : FlarmId) (ti : TeamInfo)
    (h : ∀ tr, tl.FindTraffic id = some tr → tr.location_available = false) :
    ComputeFlarmTeam loc ref tl id ti =
      { ti with flarm_teammate_code_current := false } := by
  unfold ComputeFlarmTeam
  rcases hf : tl.FindTraffic id with _ | tr
  · rfl
  · have hloc := h tr hf
    dsimp only
    rw [hloc]
    rfl

/-- A state with the reference already resolved, a teammate previously
seen, and a configured FLARM id. -/
def c10Settings : ComputerSettings :=
  { teamSettings with team_code.team_flarm_id := ⟨7⟩ }

def c10State : GlideComputer :=
  { GlideComputer.Create with
      calculated.team.teammate_available := true,
      calculated.team.teammate_location := ⟨8, 9⟩,
      team_code_ref_id := 1,
      team_code_ref_found := true,
      team_code_ref_location := ⟨3, 4⟩ }

/-- Claim C10: with a FLARM teammate configured and the reference
resolved, if the configured contact is missing from the traffic list or
has no location, the teammate recomputation only sets
flarm_teammate_code_current to false: teammate_available,
teammate_location, teammate_vector and flarm_teammate_code all keep their
previous values, so a previously-seen teammate stays flagged available
with stale position data. -/
theorem c10_flarm_absent_frame :
    (∀ (loc ref : GeoPoint) (tl : TrafficList) (id : FlarmId)
       (ti : TeamInfo),
      (∀ tr, tl.FindTraffic id = some tr → tr.location_available = false) →
      ComputeFlarmTeam loc ref tl id ti =
        { ti with flarm_teammate_code_current := false }) ∧
    (∀ (gc : GlideComputer) (s : ComputerSettings) (wps : Waypoints)
       (basic : MoreData),
      s.team_code.team_flarm_id.IsDefined = true →
      0 ≤ s.team_code.team_code_reference_waypoint →
      gc.team_code_ref_id = s.team_code.team_code_reference_waypoint →
      gc.team_code_ref_found = true →
      (∀ tr, basic.flarm_traffic.FindTraffic s.team_code.team_flarm_id =
          some tr → tr.location_available = false) →
      gc.CalculateTeammateBearingRange s wps basic =
        ({ gc with calculated.team.flarm_teammate_code_current := false },
         [])) := by
  refine ⟨computeFlarmTeam_absent, ?_⟩
  intro gc s wps basic hdef h0 hid hfound htr
  unfold GlideComputer.CalculateTeammateBearingRange
  dsimp only
  rw [determine_cached gc s wps h0 hid]
  dsimp only
  rw [hfound]
  rw [if_neg (by simp)]
  rw [if_pos hdef]
  rw [computeFlarmTeam_absent _ _ _ _ _ htr]

/-- Witness for C10: an empty traffic list leaves the previously-seen
teammate flagged available with its stale location. -/
theorem c10_witness :
    c10Settings.team_code.team_flarm_id.IsDefined = true ∧
    c10State.team_code_ref_found = true ∧
    (c10State.CalculateTeammateBearingRange c10Settings teamWaypoints
        baseTick =
      ({ c10State with calculated.team.flarm_teammate_code_current := false },
       [])) ∧
    (c10State.CalculateTeammateBearingRange c10Settings teamWaypoints
      baseTick).1.calculated.team.teammate_available = true ∧
    (c10State.CalculateTeammateBearingRange c10Settings teamWaypoints
      baseTick).1.calculated.team.teammate_location = ⟨8, 9⟩ :=
  ⟨rfl, rfl,
   c10_flarm_absent_frame.2 c10State c10Settings teamWaypoints baseTick rfl
     (by decide) (by decide) rfl
     (fun tr h => by simp [TrafficList.FindTraffic, baseTick, baseStats] at h),
   by with_unfolding_all decide, by with_unfolding_all decide⟩

end XCSoar
